import Mathlib

/-!
# Pong (`src/script.js`): a shallow embedding and its verified properties

JavaScript numbers are modelled as elements of a linearly ordered field `α`
(exact arithmetic; rounding is not modelled, so an equality between computed
values is an equality of the exact values).  The definitions are executable
over `ℚ`; the statements that depend on trigonometry are stated over `ℝ` with
the real `π`, `cos` and `sin`.

The module-level variables of the script (`player`, `ai`, `ball`, `running`,
`paused`, `lastTime`, `keys`, the pending reset timer and the two button
`disabled` flags) are the fields of one record `Game`; every function of the
script that mutates them becomes a function `Game α → Game α`.
-/

namespace Pong

/-- The numeric environment of the script: `Math.PI`, `Math.cos`, `Math.sin`. -/
structure Trig (α : Type) where
  PI : α
  cos : α → α
  sin : α → α

/-- The string literals `'player'` and `'ai'` used as the `servingTo` argument,
also used to tell which paddle object is passed to `reflectBallFromPaddle`. -/
inductive Side where
  | player
  | ai
  deriving DecidableEq, Repr

/-- The `e.code` of a keyboard event. -/
inductive KeyCode where
  | ArrowUp
  | ArrowDown
  | other
  deriving DecidableEq, Repr

/-- The object literals `player` and `ai` (lines 21-38); the field `dy` of
`player` is never read or written and is left out. -/
structure Paddle (α : Type) where
  x : α
  y : α
  width : α
  height : α
  speed : α
  score : Nat
  deriving DecidableEq, Repr

/-- The object literal `ball` (lines 40-47). -/
structure Ball (α : Type) where
  x : α
  y : α
  r : α
  speed : α
  vx : α
  vy : α
  deriving DecidableEq, Repr

/-- The object literal `keys` (lines 55-58). -/
structure Keys where
  ArrowUp : Bool
  ArrowDown : Bool
  deriving DecidableEq, Repr

/-- The rectangle literals `playerRect` / `aiRect` built in `update`. -/
structure Rect (α : Type) where
  x : α
  y : α
  width : α
  height : α
  deriving DecidableEq, Repr

/-- The whole mutable state of the script.  `timer` is the pending
`setTimeout` callback, if any, together with the `servingTo` argument that the
callback closes over; `startBtnDisabled` / `pauseBtnDisabled` are the
`disabled` properties of the two buttons. -/
structure Game (α : Type) where
  WIDTH : α
  HEIGHT : α
  player : Paddle α
  ai : Paddle α
  ball : Ball α
  running : Bool
  paused : Bool
  lastTime : α
  timer : Option Side
  keys : Keys
  startBtnDisabled : Bool
  pauseBtnDisabled : Bool
  deriving DecidableEq, Repr

section Code

variable {α : Type} [LinearOrderedField α]

/-- Lines 116-118: `Math.max(a, Math.min(b, v))`. -/
def clamp (v a b : α) : α := max a (min b v)

/-- Lines 120-127. -/
def rectCircleColliding (circle : Ball α) (rect : Rect α) : Bool :=
  let closestX := clamp circle.x rect.x (rect.x + rect.width)
  let closestY := clamp circle.y rect.y (rect.y + rect.height)
  let dx := circle.x - closestX
  let dy := circle.y - closestY
  decide ((dx * dx + dy * dy) < (circle.r * circle.r))

/-- Lines 61-69 with an explicit `servingTo`; `u` is the value returned by the
call of `Math.random()` on line 65.  The products on lines 67-68 are exact
here, where the script rounds them to doubles: signs and bounds carry over to
the script, exact equalities between computed values do not. -/
def resetBall (T : Trig α) (g : Game α) (servingTo : Side) (u : α) : Game α :=
  let angle := (u * T.PI / 4) - (T.PI / 8)
  let dir : α := if servingTo = Side.player then -1 else 1
  let speed : α := 5
  { g with ball := { g.ball with
      x := g.WIDTH / 2
      y := g.HEIGHT / 2
      speed := speed
      vx := dir * speed * T.cos angle
      vy := speed * T.sin angle } }

/-- Line 61: the default value of `servingTo`, from a draw `u0` of
`Math.random()`. -/
def defaultServingTo (u0 : α) : Side :=
  if u0 < 1 / 2 then Side.player else Side.ai

/-- The paddle object that `which` names. -/
def paddleOf (g : Game α) (which : Side) : Paddle α :=
  match which with
  | Side.player => g.player
  | Side.ai => g.ai

/-- Line 193: `relativeIntersectY` as computed by `reflectBallFromPaddle`. -/
def relativeIntersectY (g : Game α) (which : Side) : α :=
  let paddle := paddleOf g which
  let paddleCenter := paddle.y + paddle.height / 2
  (g.ball.y - paddleCenter) / (paddle.height / 2)

/-- Line 195: `bounceAngle` as computed by `reflectBallFromPaddle`. -/
def bounceAngle (T : Trig α) (g : Game α) (which : Side) : α :=
  let maxBounceAngle := (5 * T.PI) / 12
  relativeIntersectY g which * maxBounceAngle

/-- Lines 190-203; `which` tells whether the argument is `player` or `ai`
(the test `paddle === player`).  The products on lines 201-202 are exact here,
where the script rounds them to doubles. -/
def reflectBallFromPaddle (T : Trig α) (g : Game α) (which : Side) : Game α :=
  let bounceAngle := bounceAngle T g which
  let direction : α := if which = Side.player then 1 else -1
  let newSpeed := min 12 (g.ball.speed + 1 / 2)
  { g with ball := { g.ball with
      speed := newSpeed
      vx := direction * newSpeed * T.cos bounceAngle
      vy := newSpeed * T.sin bounceAngle } }

/-- Lines 205-218: the synchronous part of `pauseAndReset`; the callback is
recorded in `timer` (a previous pending one is cancelled by being replaced). -/
def pauseAndReset (g : Game α) (servingTo : Side) : Game α :=
  { g with
    paused := true
    startBtnDisabled := false
    pauseBtnDisabled := true
    timer := some servingTo }

/-- Lines 212-217: the callback of the reset timer, run when the timer fires;
`u` is the draw of `Math.random()` made by `resetBall`. -/
def resetCallback (T : Trig α) (g : Game α) (servingTo : Side) (u : α) : Game α :=
  let g1 := resetBall T g (if servingTo = Side.player then Side.ai else Side.player) u
  { g1 with
    paused := false
    startBtnDisabled := true
    pauseBtnDisabled := false
    timer := none }

/-- Lines 132-139: keyboard paddle movement and clamp. -/
def movePlayer (g : Game α) : Game α :=
  let y1 :=
    if g.keys.ArrowUp then g.player.y - g.player.speed
    else if g.keys.ArrowDown then g.player.y + g.player.speed
    else g.player.y
  { g with player := { g.player with y := clamp y1 0 (g.HEIGHT - g.player.height) } }

/-- Lines 141-149: the simple AI. -/
def moveAi (g : Game α) : Game α :=
  let aiCenter := g.ai.y + g.ai.height / 2
  let followSpeed := g.ai.speed
  let y1 :=
    if g.ball.y < aiCenter - 6 then g.ai.y - followSpeed
    else if g.ball.y > aiCenter + 6 then g.ai.y + followSpeed
    else g.ai.y
  { g with ai := { g.ai with y := clamp y1 0 (g.HEIGHT - g.ai.height) } }

/-- Lines 151-153: move the ball. -/
def moveBall (g : Game α) : Game α :=
  { g with ball := { g.ball with x := g.ball.x + g.ball.vx, y := g.ball.y + g.ball.vy } }

/-- Lines 155-162: top/bottom collision. -/
def wallCollision (g : Game α) : Game α :=
  if g.ball.y - g.ball.r ≤ 0 then
    { g with ball := { g.ball with y := g.ball.r, vy := g.ball.vy * (-1) } }
  else if g.ball.y + g.ball.r ≥ g.HEIGHT then
    { g with ball := { g.ball with y := g.HEIGHT - g.ball.r, vy := g.ball.vy * (-1) } }
  else g

/-- Line 165. -/
def playerRect (g : Game α) : Rect α :=
  { x := g.player.x, y := g.player.y, width := g.player.width, height := g.player.height }

/-- Line 166. -/
def aiRect (g : Game α) : Rect α :=
  { x := g.ai.x, y := g.ai.y, width := g.ai.width, height := g.ai.height }

/-- Line 168: the test that selects the left-paddle branch. -/
def hitsPlayer (g : Game α) : Bool :=
  decide (g.ball.vx < 0) && rectCircleColliding g.ball (playerRect g)

/-- Line 172: the test that selects the right-paddle branch (reached only when
the left-paddle test failed). -/
def hitsAi (g : Game α) : Bool :=
  decide (g.ball.vx > 0) && rectCircleColliding g.ball (aiRect g)

/-- Lines 164-176: paddle collisions. -/
def paddleCollision (T : Trig α) (g : Game α) : Game α :=
  if hitsPlayer g then
    reflectBallFromPaddle T
      { g with ball := { g.ball with x := g.player.x + g.player.width + g.ball.r } } Side.player
  else if hitsAi g then
    reflectBallFromPaddle T
      { g with ball := { g.ball with x := g.ai.x - g.ball.r } } Side.ai
  else g

/-- Lines 178-187: score check. -/
def scoreCheck (g : Game α) : Game α :=
  if g.ball.x + g.ball.r < 0 then
    pauseAndReset { g with ai := { g.ai with score := g.ai.score + 1 } } Side.ai
  else if g.ball.x - g.ball.r > g.WIDTH then
    pauseAndReset { g with player := { g.player with score := g.player.score + 1 } } Side.player
  else g

/-- The state of `update` when the paddle collisions are tested (after lines
132-162: both paddles moved, ball moved and bounced off the walls). -/
def beforeCollision (g : Game α) : Game α :=
  wallCollision (moveBall (moveAi (movePlayer g)))

/-- The state of `update` just before the score check (after lines 132-176). -/
def beforeScore (T : Trig α) (g : Game α) : Game α :=
  paddleCollision T (beforeCollision g)

/-- Lines 129-188: `update(dt)`; the argument `dt` is not used by the body. -/
def update (T : Trig α) (g : Game α) : Game α :=
  if !g.running || g.paused then g
  else scoreCheck (beforeScore T g)

/-- Lines 74-79: the `mousemove` listener; `mouseY` is `e.clientY - rect.top`. -/
def mouseMove (g : Game α) (mouseY : α) : Game α :=
  { g with player := { g.player with
      y := clamp (mouseY - g.player.height / 2) 0 (g.HEIGHT - g.player.height) } }

/-- Lines 81-86: the `keydown` listener. -/
def keyDown (g : Game α) (code : KeyCode) : Game α :=
  match code with
  | KeyCode.ArrowUp => { g with keys := { g.keys with ArrowUp := true } }
  | KeyCode.ArrowDown => { g with keys := { g.keys with ArrowDown := true } }
  | KeyCode.other => g

/-- Lines 88-93: the `keyup` listener. -/
def keyUp (g : Game α) (code : KeyCode) : Game α :=
  match code with
  | KeyCode.ArrowUp => { g with keys := { g.keys with ArrowUp := false } }
  | KeyCode.ArrowDown => { g with keys := { g.keys with ArrowDown := false } }
  | KeyCode.other => g

/-- Lines 95-106: the click handler of the start button; `now` is the value of
`performance.now()`. -/
def startClick (g : Game α) (now : α) : Game α :=
  let g1 : Game α :=
    if !g.running then { g with running := true, paused := false, lastTime := now }
    else { g with paused := false }
  { g1 with startBtnDisabled := true, pauseBtnDisabled := false }

/-- Lines 108-112: the click handler of the pause button. -/
def pauseClick (g : Game α) : Game α :=
  { g with paused := true, startBtnDisabled := false, pauseBtnDisabled := true }

/-- Lines 13-71 and 114: the state after the script has been loaded, for a
canvas of the given size; `u` is the draw of `Math.random()` made by the call
`resetBall('player')` on line 71.  The start button, which the script does not
touch while loading, is taken to be enabled. -/
def init (T : Trig α) (WIDTH HEIGHT u : α) : Game α :=
  let paddleWidth : α := 14
  let paddleHeight : α := 100
  let paddleInset : α := 20
  let g0 : Game α :=
    { WIDTH := WIDTH
      HEIGHT := HEIGHT
      player :=
        { x := paddleInset, y := (HEIGHT - paddleHeight) / 2, width := paddleWidth,
          height := paddleHeight, speed := 6, score := 0 }
      ai :=
        { x := WIDTH - paddleInset - paddleWidth, y := (HEIGHT - paddleHeight) / 2,
          width := paddleWidth, height := paddleHeight, speed := 4, score := 0 }
      ball := { x := WIDTH / 2, y := HEIGHT / 2, r := 12, speed := 5, vx := 5, vy := 0 }
      running := false
      paused := false
      lastTime := 0
      timer := none
      keys := { ArrowUp := false, ArrowDown := false }
      startBtnDisabled := false
      pauseBtnDisabled := true }
  resetBall T g0 Side.player u

/-- What can happen to the page: a call of `update`, the input events, the
button clicks, the firing of the pending reset timer (with the random draw
its `resetBall` makes) and the bookkeeping of an animation frame (line 275 of
`loop`: `lastTime = timestamp`).  A run of `loop` is a `frame` event followed
by `update` events. -/
inductive Event (α : Type) where
  | update
  | mousemove (mouseY : α)
  | keydown (code : KeyCode)
  | keyup (code : KeyCode)
  | startClick (now : α)
  | pauseClick
  | timerFires (u : α)
  | frame (timestamp : α)

/-- The effect of one event.  A click on a disabled button runs no handler;
a timer fires only when one is pending; `loop` returns at once when the game
is not running. -/
def step (T : Trig α) (g : Game α) : Event α → Game α
  | Event.update => update T g
  | Event.mousemove mouseY => mouseMove g mouseY
  | Event.keydown code => keyDown g code
  | Event.keyup code => keyUp g code
  | Event.startClick now => if g.startBtnDisabled then g else startClick g now
  | Event.pauseClick => if g.pauseBtnDisabled then g else pauseClick g
  | Event.timerFires u =>
    match g.timer with
    | some servingTo => resetCallback T g servingTo u
    | none => g
  | Event.frame timestamp => if g.running then { g with lastTime := timestamp } else g

/-- Run a sequence of events. -/
def run (T : Trig α) (g : Game α) (es : List (Event α)) : Game α :=
  es.foldl (step T) g

/-- Line 65: the launch angle computed by `resetBall` from the draw `u` of
`Math.random()`. -/
def serveAngle (T : Trig α) (u : α) : α :=
  (u * T.PI / 4) - (T.PI / 8)

/-- Lines 274 and 280: `steps = Math.max(1, Math.floor(dt))` with
`dt = (timestamp - lastTime) / 16.6667`. -/
def loopSteps [FloorRing α] (timestamp lastTime : α) : ℤ :=
  let dt := (timestamp - lastTime) / (166667 / 10000)
  max 1 (Int.floor dt)

/-- Lines 273-284: the number of times one run of `loop(timestamp)` executes the
call `update(1)` on line 282. -/
def loopUpdateCalls [FloorRing α] (g : Game α) (timestamp : α) : ℕ :=
  if !g.running then 0
  else if !g.paused then (loopSteps timestamp g.lastTime).toNat
  else 0

/-- Lines 272-288: `loop(timestamp)`.  Drawing and the request for the next
animation frame do not change the game state and are left out. -/
def loop [FloorRing α] (T : Trig α) (g : Game α) (timestamp : α) : Game α :=
  if !g.running then g
  else
    let steps := loopSteps timestamp g.lastTime
    let g1 : Game α := { g with lastTime := timestamp }
    if !g1.paused then Nat.iterate (update T) steps.toNat g1
    else g1

end Code

/-- The events the page can deliver: the draw of `Math.random()` made when the
reset timer fires lies in `[0, 1)`. -/
def Event.Valid {α : Type} [LinearOrderedField α] : Event α → Prop
  | Event.timerFires u => 0 ≤ u ∧ u < 1
  | _ => True

/-- The states reachable from the initial state of a `WIDTH × HEIGHT` canvas. -/
inductive Reachable {α : Type} [LinearOrderedField α] (T : Trig α) (WIDTH HEIGHT : α) :
    Game α → Prop where
  | init (u : α) (hu0 : 0 ≤ u) (hu1 : u < 1) : Reachable T WIDTH HEIGHT (init T WIDTH HEIGHT u)
  | step (g : Game α) (e : Event α) (he : e.Valid) (h : Reachable T WIDTH HEIGHT g) :
      Reachable T WIDTH HEIGHT (step T g e)

section Predicates

variable {α : Type} [LinearOrderedField α]

/-- Both paddles have the source height 100 and lie inside a field of height
`HEIGHT`. -/
def PaddlesInField (HEIGHT : α) (g : Game α) : Prop :=
  g.HEIGHT = HEIGHT ∧ g.player.height = 100 ∧ g.ai.height = 100 ∧
    (0 ≤ g.player.y ∧ g.player.y ≤ HEIGHT - 100) ∧ (0 ≤ g.ai.y ∧ g.ai.y ≤ HEIGHT - 100)

/-- The ball's scalar speed lies between the base speed 5 and the cap 12. -/
def SpeedInRange (b : Ball α) : Prop := 5 ≤ b.speed ∧ b.speed ≤ 12

/-- The fields that the script never assigns keep the values of the object
literals (lines 17-47) on a canvas of width `WIDTH`. -/
def SourceConstants (WIDTH : α) (g : Game α) : Prop :=
  g.WIDTH = WIDTH ∧
    (g.player.x = 20 ∧ g.player.width = 14 ∧ g.player.height = 100 ∧ g.player.speed = 6) ∧
    (g.ai.x = WIDTH - 20 - 14 ∧ g.ai.width = 14 ∧ g.ai.height = 100 ∧ g.ai.speed = 4) ∧
    g.ball.r = 12

/-- A ball that moves left has not passed the right goal line. -/
def LeftwardInField (g : Game α) : Prop :=
  g.ball.vx < 0 → g.ball.x - g.ball.r ≤ g.WIDTH

/-- A running, unpaused game on an 800 × 600 canvas with the source constants,
no key pressed, the ai paddle centred, the player paddle at height `py` and
the ball at `(bx, bY)` with velocity `(vx, vy)` and speed 5. -/
def rally (py bx bY vx vy : α) : Game α :=
  { WIDTH := 800
    HEIGHT := 600
    player := { x := 20, y := py, width := 14, height := 100, speed := 6, score := 0 }
    ai := { x := 766, y := 250, width := 14, height := 100, speed := 4, score := 0 }
    ball := { x := bx, y := bY, r := 12, speed := 5, vx := vx, vy := vy }
    running := true
    paused := false
    lastTime := 0
    timer := none
    keys := { ArrowUp := false, ArrowDown := false }
    startBtnDisabled := true
    pauseBtnDisabled := false }

end Predicates

/-! ## Frame lemmas: what each phase of `update` leaves unchanged -/

section Frames

variable {α : Type} [LinearOrderedField α]

@[simp]
theorem movePlayer_WIDTH (g : Game α) : (movePlayer g).WIDTH = g.WIDTH := rfl

@[simp]
theorem movePlayer_HEIGHT (g : Game α) : (movePlayer g).HEIGHT = g.HEIGHT := rfl

@[simp]
theorem movePlayer_ai (g : Game α) : (movePlayer g).ai = g.ai := rfl

@[simp]
theorem movePlayer_ball (g : Game α) : (movePlayer g).ball = g.ball := rfl

@[simp]
theorem movePlayer_running (g : Game α) : (movePlayer g).running = g.running := rfl

@[simp]
theorem movePlayer_paused (g : Game α) : (movePlayer g).paused = g.paused := rfl

@[simp]
theorem movePlayer_lastTime (g : Game α) : (movePlayer g).lastTime = g.lastTime := rfl

@[simp]
theorem movePlayer_timer (g : Game α) : (movePlayer g).timer = g.timer := rfl

@[simp]
theorem movePlayer_keys (g : Game α) : (movePlayer g).keys = g.keys := rfl

@[simp]
theorem movePlayer_startBtnDisabled (g : Game α) : (movePlayer g).startBtnDisabled = g.startBtnDisabled := rfl

@[simp]
theorem movePlayer_pauseBtnDisabled (g : Game α) : (movePlayer g).pauseBtnDisabled = g.pauseBtnDisabled := rfl

@[simp]
theorem movePlayer_player_x (g : Game α) : (movePlayer g).player.x = g.player.x := rfl

@[simp]
theorem movePlayer_player_width (g : Game α) : (movePlayer g).player.width = g.player.width := rfl

@[simp]
theorem movePlayer_player_height (g : Game α) : (movePlayer g).player.height = g.player.height := rfl

@[simp]
theorem movePlayer_player_speed (g : Game α) : (movePlayer g).player.speed = g.player.speed := rfl

@[simp]
theorem movePlayer_player_score (g : Game α) : (movePlayer g).player.score = g.player.score := rfl

@[simp]
theorem moveAi_WIDTH (g : Game α) : (moveAi g).WIDTH = g.WIDTH := rfl

@[simp]
theorem moveAi_HEIGHT (g : Game α) : (moveAi g).HEIGHT = g.HEIGHT := rfl

@[simp]
theorem moveAi_player (g : Game α) : (moveAi g).player = g.player := rfl

@[simp]
theorem moveAi_ball (g : Game α) : (moveAi g).ball = g.ball := rfl

@[simp]
theorem moveAi_running (g : Game α) : (moveAi g).running = g.running := rfl

@[simp]
theorem moveAi_paused (g : Game α) : (moveAi g).paused = g.paused := rfl

@[simp]
theorem moveAi_lastTime (g : Game α) : (moveAi g).lastTime = g.lastTime := rfl

@[simp]
theorem moveAi_timer (g : Game α) : (moveAi g).timer = g.timer := rfl

@[simp]
theorem moveAi_keys (g : Game α) : (moveAi g).keys = g.keys := rfl

@[simp]
theorem moveAi_startBtnDisabled (g : Game α) : (moveAi g).startBtnDisabled = g.startBtnDisabled := rfl

@[simp]
theorem moveAi_pauseBtnDisabled (g : Game α) : (moveAi g).pauseBtnDisabled = g.pauseBtnDisabled := rfl

@[simp]
theorem moveAi_ai_x (g : Game α) : (moveAi g).ai.x = g.ai.x := rfl

@[simp]
theorem moveAi_ai_width (g : Game α) : (moveAi g).ai.width = g.ai.width := rfl

@[simp]
theorem moveAi_ai_height (g : Game α) : (moveAi g).ai.height = g.ai.height := rfl

@[simp]
theorem moveAi_ai_speed (g : Game α) : (moveAi g).ai.speed = g.ai.speed := rfl

@[simp]
theorem moveAi_ai_score (g : Game α) : (moveAi g).ai.score = g.ai.score := rfl

@[simp]
theorem moveBall_WIDTH (g : Game α) : (moveBall g).WIDTH = g.WIDTH := rfl

@[simp]
theorem moveBall_HEIGHT (g : Game α) : (moveBall g).HEIGHT = g.HEIGHT := rfl

@[simp]
theorem moveBall_player (g : Game α) : (moveBall g).player = g.player := rfl

@[simp]
theorem moveBall_ai (g : Game α) : (moveBall g).ai = g.ai := rfl

@[simp]
theorem moveBall_running (g : Game α) : (moveBall g).running = g.running := rfl

@[simp]
theorem moveBall_paused (g : Game α) : (moveBall g).paused = g.paused := rfl

@[simp]
theorem moveBall_lastTime (g : Game α) : (moveBall g).lastTime = g.lastTime := rfl

@[simp]
theorem moveBall_timer (g : Game α) : (moveBall g).timer = g.timer := rfl

@[simp]
theorem moveBall_keys (g : Game α) : (moveBall g).keys = g.keys := rfl

@[simp]
theorem moveBall_startBtnDisabled (g : Game α) : (moveBall g).startBtnDisabled = g.startBtnDisabled := rfl

@[simp]
theorem moveBall_pauseBtnDisabled (g : Game α) : (moveBall g).pauseBtnDisabled = g.pauseBtnDisabled := rfl

@[simp]
theorem moveBall_ball_r (g : Game α) : (moveBall g).ball.r = g.ball.r := rfl

@[simp]
theorem moveBall_ball_speed (g : Game α) : (moveBall g).ball.speed = g.ball.speed := rfl

@[simp]
theorem moveBall_ball_vx (g : Game α) : (moveBall g).ball.vx = g.ball.vx := rfl

@[simp]
theorem moveBall_ball_vy (g : Game α) : (moveBall g).ball.vy = g.ball.vy := rfl

@[simp]
theorem wallCollision_WIDTH (g : Game α) : (wallCollision g).WIDTH = g.WIDTH := by
  unfold wallCollision; split_ifs <;> rfl

@[simp]
theorem wallCollision_HEIGHT (g : Game α) : (wallCollision g).HEIGHT = g.HEIGHT := by
  unfold wallCollision; split_ifs <;> rfl

@[simp]
theorem wallCollision_player (g : Game α) : (wallCollision g).player = g.player := by
  unfold wallCollision; split_ifs <;> rfl

@[simp]
theorem wallCollision_ai (g : Game α) : (wallCollision g).ai = g.ai := by
  unfold wallCollision; split_ifs <;> rfl

@[simp]
theorem wallCollision_running (g : Game α) : (wallCollision g).running = g.running := by
  unfold wallCollision; split_ifs <;> rfl

@[simp]
theorem wallCollision_paused (g : Game α) : (wallCollision g).paused = g.paused := by
  unfold wallCollision; split_ifs <;> rfl

@[simp]
theorem wallCollision_lastTime (g : Game α) : (wallCollision g).lastTime = g.lastTime := by
  unfold wallCollision; split_ifs <;> rfl

@[simp]
theorem wallCollision_timer (g : Game α) : (wallCollision g).timer = g.timer := by
  unfold wallCollision; split_ifs <;> rfl

@[simp]
theorem wallCollision_keys (g : Game α) : (wallCollision g).keys = g.keys := by
  unfold wallCollision; split_ifs <;> rfl

@[simp]
theorem wallCollision_startBtnDisabled (g : Game α) : (wallCollision g).startBtnDisabled = g.startBtnDisabled := by
  unfold wallCollision; split_ifs <;> rfl

@[simp]
theorem wallCollision_pauseBtnDisabled (g : Game α) : (wallCollision g).pauseBtnDisabled = g.pauseBtnDisabled := by
  unfold wallCollision; split_ifs <;> rfl

@[simp]
theorem wallCollision_ball_x (g : Game α) : (wallCollision g).ball.x = g.ball.x := by
  unfold wallCollision; split_ifs <;> rfl

@[simp]
theorem wallCollision_ball_r (g : Game α) : (wallCollision g).ball.r = g.ball.r := by
  unfold wallCollision; split_ifs <;> rfl

@[simp]
theorem wallCollision_ball_speed (g : Game α) : (wallCollision g).ball.speed = g.ball.speed := by
  unfold wallCollision; split_ifs <;> rfl

@[simp]
theorem wallCollision_ball_vx (g : Game α) : (wallCollision g).ball.vx = g.ball.vx := by
  unfold wallCollision; split_ifs <;> rfl

@[simp]
theorem paddleCollision_WIDTH (T : Trig α) (g : Game α) : (paddleCollision T g).WIDTH = g.WIDTH := by
  unfold paddleCollision; split_ifs <;> rfl

@[simp]
theorem paddleCollision_HEIGHT (T : Trig α) (g : Game α) : (paddleCollision T g).HEIGHT = g.HEIGHT := by
  unfold paddleCollision; split_ifs <;> rfl

@[simp]
theorem paddleCollision_player (T : Trig α) (g : Game α) : (paddleCollision T g).player = g.player := by
  unfold paddleCollision; split_ifs <;> rfl

@[simp]
theorem paddleCollision_ai (T : Trig α) (g : Game α) : (paddleCollision T g).ai = g.ai := by
  unfold paddleCollision; split_ifs <;> rfl

@[simp]
theorem paddleCollision_running (T : Trig α) (g : Game α) : (paddleCollision T g).running = g.running := by
  unfold paddleCollision; split_ifs <;> rfl

@[simp]
theorem paddleCollision_paused (T : Trig α) (g : Game α) : (paddleCollision T g).paused = g.paused := by
  unfold paddleCollision; split_ifs <;> rfl

@[simp]
theorem paddleCollision_lastTime (T : Trig α) (g : Game α) : (paddleCollision T g).lastTime = g.lastTime := by
  unfold paddleCollision; split_ifs <;> rfl

@[simp]
theorem paddleCollision_timer (T : Trig α) (g : Game α) : (paddleCollision T g).timer = g.timer := by
  unfold paddleCollision; split_ifs <;> rfl

@[simp]
theorem paddleCollision_keys (T : Trig α) (g : Game α) : (paddleCollision T g).keys = g.keys := by
  unfold paddleCollision; split_ifs <;> rfl

@[simp]
theorem paddleCollision_startBtnDisabled (T : Trig α) (g : Game α) : (paddleCollision T g).startBtnDisabled = g.startBtnDisabled := by
  unfold paddleCollision; split_ifs <;> rfl

@[simp]
theorem paddleCollision_pauseBtnDisabled (T : Trig α) (g : Game α) : (paddleCollision T g).pauseBtnDisabled = g.pauseBtnDisabled := by
  unfold paddleCollision; split_ifs <;> rfl

@[simp]
theorem paddleCollision_ball_y (T : Trig α) (g : Game α) : (paddleCollision T g).ball.y = g.ball.y := by
  unfold paddleCollision; split_ifs <;> rfl

@[simp]
theorem paddleCollision_ball_r (T : Trig α) (g : Game α) : (paddleCollision T g).ball.r = g.ball.r := by
  unfold paddleCollision; split_ifs <;> rfl

@[simp]
theorem scoreCheck_WIDTH (g : Game α) : (scoreCheck g).WIDTH = g.WIDTH := by
  unfold scoreCheck; split_ifs <;> rfl

@[simp]
theorem scoreCheck_HEIGHT (g : Game α) : (scoreCheck g).HEIGHT = g.HEIGHT := by
  unfold scoreCheck; split_ifs <;> rfl

@[simp]
theorem scoreCheck_ball (g : Game α) : (scoreCheck g).ball = g.ball := by
  unfold scoreCheck; split_ifs <;> rfl

@[simp]
theorem scoreCheck_running (g : Game α) : (scoreCheck g).running = g.running := by
  unfold scoreCheck; split_ifs <;> rfl

@[simp]
theorem scoreCheck_lastTime (g : Game α) : (scoreCheck g).lastTime = g.lastTime := by
  unfold scoreCheck; split_ifs <;> rfl

@[simp]
theorem scoreCheck_keys (g : Game α) : (scoreCheck g).keys = g.keys := by
  unfold scoreCheck; split_ifs <;> rfl

@[simp]
theorem scoreCheck_player_x (g : Game α) : (scoreCheck g).player.x = g.player.x := by
  unfold scoreCheck; split_ifs <;> rfl

@[simp]
theorem scoreCheck_player_y (g : Game α) : (scoreCheck g).player.y = g.player.y := by
  unfold scoreCheck; split_ifs <;> rfl

@[simp]
theorem scoreCheck_player_width (g : Game α) : (scoreCheck g).player.width = g.player.width := by
  unfold scoreCheck; split_ifs <;> rfl

@[simp]
theorem scoreCheck_player_height (g : Game α) : (scoreCheck g).player.height = g.player.height := by
  unfold scoreCheck; split_ifs <;> rfl

@[simp]
theorem scoreCheck_player_speed (g : Game α) : (scoreCheck g).player.speed = g.player.speed := by
  unfold scoreCheck; split_ifs <;> rfl

@[simp]
theorem scoreCheck_ai_x (g : Game α) : (scoreCheck g).ai.x = g.ai.x := by
  unfold scoreCheck; split_ifs <;> rfl

@[simp]
theorem scoreCheck_ai_y (g : Game α) : (scoreCheck g).ai.y = g.ai.y := by
  unfold scoreCheck; split_ifs <;> rfl

@[simp]
theorem scoreCheck_ai_width (g : Game α) : (scoreCheck g).ai.width = g.ai.width := by
  unfold scoreCheck; split_ifs <;> rfl

@[simp]
theorem scoreCheck_ai_height (g : Game α) : (scoreCheck g).ai.height = g.ai.height := by
  unfold scoreCheck; split_ifs <;> rfl

@[simp]
theorem scoreCheck_ai_speed (g : Game α) : (scoreCheck g).ai.speed = g.ai.speed := by
  unfold scoreCheck; split_ifs <;> rfl

end Frames

/-! ## Paddle bounds -/

section PaddleBounds

variable {α : Type} [LinearOrderedField α]

theorem clamp_bounds (v a b : α) (h : a ≤ b) : a ≤ clamp v a b ∧ clamp v a b ≤ b := by
  unfold clamp
  exact ⟨le_max_left _ _, max_le h (min_le_left _ _)⟩

theorem movePlayer_y_bounds (g : Game α) (h : g.player.height ≤ g.HEIGHT) :
    0 ≤ (movePlayer g).player.y ∧ (movePlayer g).player.y ≤ g.HEIGHT - g.player.height :=
  clamp_bounds _ _ _ (by linarith)

theorem moveAi_y_bounds (g : Game α) (h : g.ai.height ≤ g.HEIGHT) :
    0 ≤ (moveAi g).ai.y ∧ (moveAi g).ai.y ≤ g.HEIGHT - g.ai.height :=
  clamp_bounds _ _ _ (by linarith)

theorem mouseMove_y_bounds (g : Game α) (mouseY : α) (h : g.player.height ≤ g.HEIGHT) :
    0 ≤ (mouseMove g mouseY).player.y ∧
      (mouseMove g mouseY).player.y ≤ g.HEIGHT - g.player.height :=
  clamp_bounds _ _ _ (by linarith)

theorem PaddlesInField.update (T : Trig α) (HEIGHT : α) (hH : 100 ≤ HEIGHT) (g : Game α)
    (h : PaddlesInField HEIGHT g) : PaddlesInField HEIGHT (update T g) := by
  obtain ⟨h1, h2, h3, h4, h5⟩ := h
  unfold Pong.update
  split_ifs
  · exact ⟨h1, h2, h3, h4, h5⟩
  · have hp := movePlayer_y_bounds g (by rw [h1, h2]; exact hH)
    have ha := moveAi_y_bounds (movePlayer g) (by simp [h1, h3]; exact hH)
    simp only [movePlayer_HEIGHT, movePlayer_ai, h1, h2, h3] at hp ha
    simp [PaddlesInField, beforeScore, beforeCollision, h1, h2, h3, hp, ha]

theorem PaddlesInField.step (T : Trig α) (HEIGHT : α) (hH : 100 ≤ HEIGHT) (g : Game α)
    (e : Event α) (h : PaddlesInField HEIGHT g) : PaddlesInField HEIGHT (step T g e) := by
  cases e with
  | update => exact h.update T HEIGHT hH g
  | mousemove mouseY =>
    obtain ⟨h1, h2, h3, h4, h5⟩ := h
    have hp := mouseMove_y_bounds g mouseY (by rw [h1, h2]; exact hH)
    rw [h1, h2] at hp
    exact ⟨h1, h2, h3, hp, h5⟩
  | keydown code => cases code <;> exact h
  | keyup code => cases code <;> exact h
  | startClick now =>
    simp only [Pong.step, Pong.startClick]
    split_ifs <;> exact h
  | pauseClick =>
    simp only [Pong.step, Pong.pauseClick]
    split_ifs <;> exact h
  | frame timestamp =>
    simp only [Pong.step]
    split_ifs <;> exact h
  | timerFires u =>
    simp only [Pong.step]
    split
    · exact h
    · exact h

theorem PaddlesInField.init (T : Trig α) (WIDTH HEIGHT u : α) (hH : 100 ≤ HEIGHT) :
    PaddlesInField HEIGHT (init T WIDTH HEIGHT u) := by
  simp only [PaddlesInField, Pong.init, resetBall]
  refine ⟨trivial, trivial, trivial, ⟨?_, ?_⟩, ⟨?_, ?_⟩⟩ <;> linarith

theorem PaddlesInField.of_reachable (T : Trig α) (WIDTH HEIGHT : α) (hH : 100 ≤ HEIGHT)
    (g : Game α) (hg : Reachable T WIDTH HEIGHT g) : PaddlesInField HEIGHT g := by
  induction hg with
  | init u _ _ => exact PaddlesInField.init T WIDTH HEIGHT u hH
  | step g e _ _ ih => exact ih.step T HEIGHT hH g e

theorem Reachable.run (T : Trig α) (WIDTH HEIGHT : α) (es : List (Event α))
    (hes : ∀ e ∈ es, e.Valid) (g : Game α) (hg : Reachable T WIDTH HEIGHT g) :
    Reachable T WIDTH HEIGHT (run T g es) := by
  induction es generalizing g with
  | nil => exact hg
  | cons e es ih =>
    exact ih (fun e' he' => hes e' (List.mem_cons_of_mem _ he')) _
      (Reachable.step g e (hes e (List.mem_cons_self _ _)) hg)

theorem run_append (T : Trig α) (g : Game α) (es fs : List (Event α)) :
    run T g (es ++ fs) = run T (run T g es) fs := by
  simp [run, List.foldl_append]

/-- C1. Paddle bounds invariant: on a field of height `HEIGHT ≥ 100` (the paddle
height), in every state reachable from the initial state by any sequence of
events (calls of `update`, mouse moves, key presses and releases, and also
button clicks, firings of the reset timer and animation frames), both paddles
satisfy
`0 ≤ y ≤ HEIGHT - height`. -/
theorem paddle_bounds_invariant (T : Trig α) (WIDTH HEIGHT : α) (hH : 100 ≤ HEIGHT)
    (g : Game α) (hg : Reachable T WIDTH HEIGHT g) :
    (0 ≤ g.player.y ∧ g.player.y ≤ g.HEIGHT - g.player.height) ∧
      (0 ≤ g.ai.y ∧ g.ai.y ≤ g.HEIGHT - g.ai.height) := by
  obtain ⟨h1, h2, h3, h4, h5⟩ := PaddlesInField.of_reachable T WIDTH HEIGHT hH g hg
  rw [h1, h2, h3]
  exact ⟨h4, h5⟩

theorem paddle_bounds_invariant_witness :
    (100 : ℝ) ≤ 600 ∧
      Reachable (Trig.mk Real.pi Real.cos Real.sin) 800 600
        (run (Trig.mk Real.pi Real.cos Real.sin)
          (init (Trig.mk Real.pi Real.cos Real.sin) 800 600 (1 / 2))
          [Event.startClick 0, Event.keydown KeyCode.ArrowUp, Event.mousemove 700,
            Event.update]) ∧
      ((0 ≤ (run (Trig.mk Real.pi Real.cos Real.sin)
          (init (Trig.mk Real.pi Real.cos Real.sin) 800 600 (1 / 2))
          [Event.startClick 0, Event.keydown KeyCode.ArrowUp, Event.mousemove 700,
            Event.update]).player.y ∧
        (run (Trig.mk Real.pi Real.cos Real.sin)
          (init (Trig.mk Real.pi Real.cos Real.sin) 800 600 (1 / 2))
          [Event.startClick 0, Event.keydown KeyCode.ArrowUp, Event.mousemove 700,
            Event.update]).player.y ≤ 600 - 100) ∧
        (0 ≤ (run (Trig.mk Real.pi Real.cos Real.sin)
          (init (Trig.mk Real.pi Real.cos Real.sin) 800 600 (1 / 2))
          [Event.startClick 0, Event.keydown KeyCode.ArrowUp, Event.mousemove 700,
            Event.update]).ai.y ∧
        (run (Trig.mk Real.pi Real.cos Real.sin)
          (init (Trig.mk Real.pi Real.cos Real.sin) 800 600 (1 / 2))
          [Event.startClick 0, Event.keydown KeyCode.ArrowUp, Event.mousemove 700,
            Event.update]).ai.y ≤ 600 - 100)) := by
  have hr := Reachable.run (Trig.mk Real.pi Real.cos Real.sin) 800 600
    [Event.startClick 0, Event.keydown KeyCode.ArrowUp, Event.mousemove 700, Event.update]
    (by simp [Event.Valid]) _ (Reachable.init (1 / 2) (by norm_num) (by norm_num))
  have h := paddle_bounds_invariant (Trig.mk Real.pi Real.cos Real.sin) 800 600 (by norm_num)
    _ hr
  have hH := (PaddlesInField.of_reachable _ 800 600 (by norm_num) _ hr)
  rw [hH.1, hH.2.1, hH.2.2.1] at h
  exact ⟨by norm_num, hr, h⟩

end PaddleBounds

/-! ## Geometry of the collision test -/

section Geometry

variable {α : Type} [LinearOrderedField α]

theorem clamp_of_mem (v a b : α) (h1 : a ≤ v) (h2 : v ≤ b) :
    clamp v a b = v := by
  unfold clamp
  rw [min_eq_right h2, max_eq_right h1]

theorem clamp_of_le (v a b : α) (h1 : v ≤ a) (h2 : a ≤ b) :
    clamp v a b = a := by
  unfold clamp
  rw [min_eq_right (h1.trans h2), max_eq_left h1]

theorem clamp_of_ge (v a b : α) (h1 : b ≤ v) (h2 : a ≤ b) :
    clamp v a b = b := by
  unfold clamp
  rw [min_eq_left h1, max_eq_right h2]

/-- When the circle's centre is level with the rectangle and less than `r` away
from its horizontal extent, the test reports a collision. -/
theorem rectCircleColliding_of_level (c : Ball α) (rc : Rect α)
    (hr : 0 < c.r) (hw : 0 ≤ rc.width) (hy1 : rc.y ≤ c.y) (hy2 : c.y ≤ rc.y + rc.height)
    (hx1 : rc.x - c.r < c.x) (hx2 : c.x < rc.x + rc.width + c.r) :
    rectCircleColliding c rc = true := by
  have hab : rc.x ≤ rc.x + rc.width := by linarith
  simp only [rectCircleColliding, clamp_of_mem c.y _ _ hy1 hy2, sub_self, mul_zero, add_zero,
    decide_eq_true_eq]
  rcases le_total c.x rc.x with h | h
  · rw [clamp_of_le _ _ _ h hab]
    nlinarith
  · rcases le_total c.x (rc.x + rc.width) with h' | h'
    · rw [clamp_of_mem _ _ _ h h']
      nlinarith
    · rw [clamp_of_ge _ _ _ h' hab]
      nlinarith

end Geometry

/-! ## A reachable corner hit

The serve with draw `u = 1/2` is horizontal.  With the player paddle moved by
the mouse to `y = 189`, the ball flies along `y = 300` and, after 72 updates,
is at `x = 40`; the next update finds it overlapping the lower right corner of
the paddle, 11 units below the paddle's lower edge. -/

section CornerHit

variable {α : Type} [LinearOrderedField α]

open Real

/-- While the ball travels left along `y = 300` without touching the player
paddle and without leaving the field, an update only moves the ball. -/
theorem update_freeFlight (T : Trig α) (py x : α) (hpy1 : 0 ≤ py) (hpy2 : py ≤ 500)
    (hno : hitsPlayer (rally py (x - 5) 300 (-5) 0 : Game α) = false)
    (h1 : -7 ≤ x) (h2 : x ≤ 400) :
    update T (rally py x 300 (-5) 0) = rally py (x - 5) 300 (-5) 0 := by
  have hb : beforeCollision (rally py x 300 (-5) 0 : Game α) = rally py (x - 5) 300 (-5) 0 := by
    simp [beforeCollision, wallCollision, moveBall, moveAi, movePlayer, rally]
    norm_num
    exact ⟨clamp_of_mem _ _ _ hpy1 hpy2, clamp_of_mem _ _ _ (by norm_num) (by norm_num),
      by ring⟩
  have ha : hitsAi (rally py (x - 5) 300 (-5) 0 : Game α) = false := by
    simp [hitsAi, rally]
  have hu : update T (rally py x 300 (-5) 0) =
      scoreCheck (paddleCollision T (beforeCollision (rally py x 300 (-5) 0))) := by
    simp [update, beforeScore, rally]
  rw [hu, hb]
  unfold paddleCollision
  simp only [hno, ha, Bool.false_eq_true, if_false]
  unfold scoreCheck
  rw [if_neg, if_neg]
  · simp only [rally]; linarith
  · simp only [rally]; linarith

theorem run_freeFlight (T : Trig α) (py : α) (hpy1 : 0 ≤ py) (hpy2 : py ≤ 500) (n : ℕ)
    (hn : n ≤ 82)
    (hno : ∀ k : ℕ, k < n →
      hitsPlayer (rally py (400 - 5 * (k : α) - 5) 300 (-5) 0 : Game α) = false) :
    run T (rally py 400 300 (-5) 0) (List.replicate n Event.update) =
      rally py (400 - 5 * (n : α)) 300 (-5) 0 := by
  induction n with
  | zero => simp [run]
  | succ k ih =>
    have hk' : (k : α) ≤ 81 := by exact_mod_cast Nat.le_of_succ_le_succ hn
    have hk0 : (0 : α) ≤ k := Nat.cast_nonneg k
    rw [List.replicate_succ', run_append,
      ih (by omega) (fun j hj => hno j (Nat.lt_succ_of_lt hj))]
    simp only [run, List.foldl_cons, List.foldl_nil, step]
    rw [update_freeFlight T py _ hpy1 hpy2 (hno k (Nat.lt_succ_self k)) (by linarith)
      (by linarith)]
    congr 1
    push_cast
    ring

/-- The lower right corner of a paddle at `y = 189` is not touched by a ball on
the line `y = 300` whose centre is at `x ≥ 39`. -/
theorem hitsPlayer_corner_false (x : α) (h : 39 ≤ x) :
    hitsPlayer (rally 189 x 300 (-5) 0 : Game α) = false := by
  have hx : clamp x 20 (20 + 14) = (20 + 14 : α) :=
    clamp_of_ge _ _ _ (by linarith) (by norm_num)
  have hy : clamp (300 : α) 189 (189 + 100) = 189 + 100 :=
    clamp_of_ge _ _ _ (by norm_num) (by norm_num)
  simp [hitsPlayer, rectCircleColliding, playerRect, rally, hx, hy]
  nlinarith

/-- A paddle at the bottom of the field (`y = 500`) is not touched by a ball on
the line `y = 300`. -/
theorem hitsPlayer_bottom_false (x : α) :
    hitsPlayer (rally 500 x 300 (-5) 0 : Game α) = false := by
  have hy : clamp (300 : α) 500 (500 + 100) = 500 :=
    clamp_of_le _ _ _ (by norm_num) (by norm_num)
  simp [hitsPlayer, rectCircleColliding, playerRect, rally, hy]
  nlinarith [mul_self_nonneg (x - clamp x 20 (20 + 14))]

theorem cornerHit_beforeCollision :
    beforeCollision (rally 189 40 300 (-5) 0 : Game α) = rally 189 35 300 (-5) 0 := by
  simp [beforeCollision, wallCollision, moveBall, moveAi, movePlayer, rally, clamp]
  norm_num

theorem cornerHit_hitsPlayer :
    hitsPlayer (beforeCollision (rally 189 40 300 (-5) 0 : Game α)) = true := by
  rw [cornerHit_beforeCollision]
  simp [hitsPlayer, rectCircleColliding, playerRect, rally, clamp]
  norm_num

theorem cornerHit_update_ball (T : Trig α) :
    (update T (rally 189 40 300 (-5) 0)).ball =
      { x := 46, y := 300, r := 12, speed := 11 / 2,
        vx := 11 / 2 * T.cos (61 / 50 * (5 * T.PI / 12)),
        vy := 11 / 2 * T.sin (61 / 50 * (5 * T.PI / 12)) } := by
  have h : (update T (rally 189 40 300 (-5) 0)) =
      scoreCheck (paddleCollision T (beforeCollision (rally 189 40 300 (-5) 0))) := by
    simp [update, beforeScore, rally]
  rw [h, scoreCheck_ball]
  unfold paddleCollision
  rw [if_pos cornerHit_hitsPlayer, cornerHit_beforeCollision]
  simp [reflectBallFromPaddle, bounceAngle, relativeIntersectY, paddleOf, rally]
  norm_num

/-- The serve with draw `1/2` is horizontal; after the start click and a mouse
move to `mouseY` the game is the rally with the paddle centred on the mouse. -/
theorem serve_straight (mouseY : ℝ) (h1 : 50 ≤ mouseY) (h2 : mouseY ≤ 550) :
    run (Trig.mk π cos sin) (init (Trig.mk π cos sin) 800 600 (1 / 2))
      [Event.startClick 0, Event.mousemove mouseY] = rally (mouseY - 50) 400 300 (-5) 0 := by
  have h0 : (1 / 2 * π / 4 - π / 8 : ℝ) = 0 := by ring
  have hc : clamp (mouseY - 50) 0 500 = mouseY - 50 :=
    clamp_of_mem _ _ _ (by linarith) (by linarith)
  simp [run, step, init, resetBall, startClick, mouseMove, rally]
  norm_num
  rw [h0]
  simp [hc]

/-- The rally with the paddle at `mouseY - 50` and the ball at `400 - 5 n` on the
line `y = 300` is reachable when the ball has not touched the paddle on the way. -/
theorem rally_reachable (mouseY : ℝ) (h1 : 50 ≤ mouseY) (h2 : mouseY ≤ 550) (n : ℕ)
    (hn : n ≤ 82)
    (hno : ∀ k : ℕ, k < n →
      hitsPlayer (rally (mouseY - 50) (400 - 5 * (k : ℝ) - 5) 300 (-5) 0 : Game ℝ) = false) :
    Reachable (Trig.mk π cos sin) 800 600 (rally (mouseY - 50) (400 - 5 * (n : ℝ)) 300 (-5) 0) := by
  have h := Reachable.run (Trig.mk π cos sin) 800 600
    ([Event.startClick 0, Event.mousemove mouseY] ++ List.replicate n Event.update)
    (by
      intro e he
      rcases List.mem_append.mp he with h | h
      · simp at h
        rcases h with rfl | rfl <;> trivial
      · rw [List.eq_of_mem_replicate h]
        trivial)
    _ (Reachable.init (1 / 2) (by norm_num) (by norm_num))
  rw [run_append, serve_straight mouseY h1 h2,
    run_freeFlight _ _ (by linarith) (by linarith) n hn hno] at h
  exact h

theorem cornerHit_reachable :
    Reachable (Trig.mk π cos sin) 800 600 (rally 189 40 300 (-5) 0) := by
  have h := rally_reachable 239 (by norm_num) (by norm_num) 72 (by norm_num) (by
    intro k hk
    have hk' : (k : ℝ) ≤ 71 := by exact_mod_cast Nat.le_of_lt_succ hk
    norm_num
    exact hitsPlayer_corner_false _ (by linarith))
  norm_num at h
  exact h

theorem beforeGoal_reachable :
    Reachable (Trig.mk π cos sin) 800 600 (rally 500 (-10) 300 (-5) 0) := by
  have h := rally_reachable 550 (by norm_num) (by norm_num) 82 (by norm_num) (by
    intro k _
    norm_num
    exact hitsPlayer_bottom_false _)
  norm_num at h
  exact h

/-- C2. A reachable state in which `update` resolves a collision with the
player paddle and the resulting `ball.vx` is negative: the ball is sent
towards the player's own goal, not away from the paddle. -/
theorem corner_hit_sends_ball_toward_player :
    Reachable (Trig.mk π cos sin) 800 600 (rally 189 40 300 (-5) 0) ∧
      (rally 189 40 300 (-5) 0 : Game ℝ).running = true ∧
      (rally 189 40 300 (-5) 0 : Game ℝ).paused = false ∧
      hitsPlayer (beforeCollision (rally 189 40 300 (-5) 0 : Game ℝ)) = true ∧
      (update (Trig.mk π cos sin) (rally 189 40 300 (-5) 0)).ball.vx < 0 := by
  refine ⟨cornerHit_reachable, rfl, rfl, cornerHit_hitsPlayer, ?_⟩
  rw [cornerHit_update_ball]
  simp only
  have hpi := Real.pi_pos
  have : cos (61 / 50 * (5 * π / 12)) < 0 := by
    apply Real.cos_neg_of_pi_div_two_lt_of_lt <;> linarith
  linarith

/-- C3. A reachable state in which `update` detects a collision with the player
paddle while `relativeIntersectY` is `61/50 > 1`: the bounce angle used by
`reflectBallFromPaddle` is `61/50 * (5π/12)`, more than 75 degrees (indeed
more than 90 degrees). -/
theorem corner_hit_relativeIntersectY_exceeds_one :
    Reachable (Trig.mk π cos sin) 800 600 (rally 189 40 300 (-5) 0) ∧
      (beforeCollision (rally 189 40 300 (-5) 0 : Game ℝ)).ball.vx < 0 ∧
      rectCircleColliding (beforeCollision (rally 189 40 300 (-5) 0 : Game ℝ)).ball
        (playerRect (beforeCollision (rally 189 40 300 (-5) 0 : Game ℝ))) = true ∧
      relativeIntersectY (beforeCollision (rally 189 40 300 (-5) 0 : Game ℝ)) Side.player
        = 61 / 50 ∧
      ¬ relativeIntersectY (beforeCollision (rally 189 40 300 (-5) 0 : Game ℝ)) Side.player
        ≤ 1 ∧
      5 * π / 12 <
        bounceAngle (Trig.mk π cos sin) (beforeCollision (rally 189 40 300 (-5) 0)) Side.player ∧
      π / 2 <
        bounceAngle (Trig.mk π cos sin) (beforeCollision (rally 189 40 300 (-5) 0)) Side.player ∧
      (update (Trig.mk π cos sin) (rally 189 40 300 (-5) 0)).ball.vy =
        11 / 2 * sin (61 / 50 * (5 * π / 12)) := by
  have hpi := Real.pi_pos
  have hhit := cornerHit_hitsPlayer (α := ℝ)
  simp only [hitsPlayer, Bool.and_eq_true, decide_eq_true_eq] at hhit
  have hrel : relativeIntersectY (beforeCollision (rally 189 40 300 (-5) 0 : Game ℝ))
      Side.player = 61 / 50 := by
    rw [cornerHit_beforeCollision]
    simp [relativeIntersectY, paddleOf, rally]
    norm_num
  refine ⟨cornerHit_reachable, hhit.1, hhit.2, hrel, ?_, ?_, ?_, ?_⟩
  · rw [hrel]; norm_num
  · simp only [bounceAngle, hrel]; linarith
  · simp only [bounceAngle, hrel]; linarith
  · rw [cornerHit_update_ball]

end CornerHit

/-! ## The near-goal scenario -/

section NearGoal

open Real

theorem cos_bounce_pos (rel : ℝ) (h1 : -1 ≤ rel) (h2 : rel ≤ 1) :
    0 < cos (rel * (5 * π / 12)) := by
  have hpi := Real.pi_pos
  apply Real.cos_pos_of_mem_Ioo
  constructor <;> nlinarith


/-- C4 (as stated, refuted). With the ball at `x = 5`, `y = HEIGHT/2`, `vx = -5`
and the player paddle spanning `ball.y`, one update does not reflect the ball:
it is already behind the paddle, and ends at `x = 0` with `vx = -5`. -/
theorem near_goal_ball_is_not_reflected :
    (rally 250 5 300 (-5) 0 : Game ℝ).running = true ∧
      (rally 250 5 300 (-5) 0 : Game ℝ).paused = false ∧
      (rally 250 5 300 (-5) 0 : Game ℝ).ball.x = 5 ∧
      (rally 250 5 300 (-5) 0 : Game ℝ).ball.y = (rally 250 5 300 (-5) 0 : Game ℝ).HEIGHT / 2 ∧
      (rally 250 5 300 (-5) 0 : Game ℝ).ball.vx = -5 ∧
      (rally 250 5 300 (-5) 0 : Game ℝ).player.y ≤ (rally 250 5 300 (-5) 0 : Game ℝ).ball.y ∧
      (rally 250 5 300 (-5) 0 : Game ℝ).ball.y ≤
        (rally 250 5 300 (-5) 0 : Game ℝ).player.y +
          (rally 250 5 300 (-5) 0 : Game ℝ).player.height ∧
      (update (Trig.mk π cos sin) (rally 250 5 300 (-5) 0)).ball.vx = -5 ∧
      (update (Trig.mk π cos sin) (rally 250 5 300 (-5) 0)).ball.x = 0 ∧
      ¬ (0 < (update (Trig.mk π cos sin) (rally 250 5 300 (-5) 0)).ball.vx ∧
        (update (Trig.mk π cos sin) (rally 250 5 300 (-5) 0)).ball.x =
          (rally 250 5 300 (-5) 0 : Game ℝ).player.x +
            (rally 250 5 300 (-5) 0 : Game ℝ).player.width +
            (rally 250 5 300 (-5) 0 : Game ℝ).ball.r) := by
  have hu : update (Trig.mk π cos sin) (rally 250 5 300 (-5) 0) = rally 250 0 300 (-5) 0 := by
    simp [update, scoreCheck, beforeScore, paddleCollision, hitsPlayer, hitsAi,
      rectCircleColliding, playerRect, beforeCollision, wallCollision, moveBall, moveAi,
      movePlayer, rally, clamp]
    norm_num
  rw [hu]
  simp [rally]
  norm_num

/-- C4 (amended). With the game running and unpaused, the source constants for
the player paddle and the ball radius, `ball.vx = -5`, `ball.speed ≥ 0` and the
ball at an `x` with `13 < x < 51` (so that after integration the circle
overlaps the paddle's horizontal extent `[20, 34]`), if the player paddle, after
its move in this tick, vertically spans the ball's `y` after integration and
wall resolution, then one call of `update` yields `ball.vx > 0` and
`ball.x = player.x + player.width + ball.r`. -/
theorem covered_ball_is_reflected (g : Game ℝ)
    (hrun : g.running = true) (hpause : g.paused = false)
    (hpx : g.player.x = 20) (hpw : g.player.width = 14) (hph : g.player.height = 100)
    (hr : g.ball.r = 12) (hs : 0 ≤ g.ball.speed) (hvx : g.ball.vx = -5)
    (hx1 : 13 < g.ball.x) (hx2 : g.ball.x < 51)
    (hy1 : (beforeCollision g).player.y ≤ (beforeCollision g).ball.y)
    (hy2 : (beforeCollision g).ball.y ≤ (beforeCollision g).player.y + 100) :
    0 < (update (Trig.mk π cos sin) g).ball.vx ∧
      (update (Trig.mk π cos sin) g).ball.x = g.player.x + g.player.width + g.ball.r := by
  have hb : (beforeCollision g).ball.x = g.ball.x - 5 := by
    simp [beforeCollision, moveBall, hvx]; ring
  have hbvx : (beforeCollision g).ball.vx = -5 := by simp [beforeCollision, hvx]
  have hbr : (beforeCollision g).ball.r = 12 := by simp [beforeCollision, hr]
  have hbs : (beforeCollision g).ball.speed = g.ball.speed := by simp [beforeCollision]
  have hbp : (beforeCollision g).player.x = 20 ∧ (beforeCollision g).player.width = 14 ∧
      (beforeCollision g).player.height = 100 := by simp [beforeCollision, hpx, hpw, hph]
  obtain ⟨hbpx, hbpw, hbph⟩ := hbp
  have hhit : hitsPlayer (beforeCollision g) = true := by
    simp only [hitsPlayer, Bool.and_eq_true, decide_eq_true_eq]
    refine ⟨by rw [hbvx]; norm_num, ?_⟩
    apply rectCircleColliding_of_level
    · rw [hbr]; norm_num
    · simp [playerRect, hbpw]
    · simpa [playerRect] using hy1
    · simpa [playerRect, hbph] using hy2
    · simp only [playerRect, hbpx, hbr, hb]; linarith
    · simp only [playerRect, hbpx, hbpw, hbr, hb]; linarith
  have hu : update (Trig.mk π cos sin) g =
      scoreCheck (paddleCollision (Trig.mk π cos sin) (beforeCollision g)) := by
    simp [update, beforeScore, hrun, hpause]
  rw [hu, scoreCheck_ball]
  unfold paddleCollision
  rw [if_pos hhit]
  simp only [reflectBallFromPaddle, bounceAngle, relativeIntersectY, paddleOf, if_true, one_mul,
    hbpx, hbpw, hbph, hbr, hpx, hpw, hr, hbs]
  refine ⟨?_, trivial⟩
  apply mul_pos
  · exact lt_min (by norm_num) (by linarith)
  · apply cos_bounce_pos
    · rw [le_div_iff₀ (by norm_num)]; linarith
    · rw [div_le_iff₀ (by norm_num)]; linarith

theorem covered_ball_is_reflected_witness :
    0 < (update (Trig.mk π cos sin) (rally 250 45 300 (-5) 0)).ball.vx ∧
      (update (Trig.mk π cos sin) (rally 250 45 300 (-5) 0)).ball.x =
        (rally 250 45 300 (-5) 0 : Game ℝ).player.x +
          (rally 250 45 300 (-5) 0 : Game ℝ).player.width +
          (rally 250 45 300 (-5) 0 : Game ℝ).ball.r := by
  have hb : beforeCollision (rally 250 45 300 (-5) 0 : Game ℝ) = rally 250 40 300 (-5) 0 := by
    simp [beforeCollision, wallCollision, moveBall, moveAi, movePlayer, rally, clamp]
    norm_num
  exact covered_ball_is_reflected (rally 250 45 300 (-5) 0) rfl rfl rfl rfl rfl rfl
    (by norm_num [rally]) rfl (by norm_num [rally]) (by norm_num [rally])
    (by rw [hb]; norm_num [rally]) (by rw [hb]; norm_num [rally])

end NearGoal

/-! ## Scoring and the serve delay -/

section Scoring

variable {α : Type} [LinearOrderedField α]

open Real

theorem update_of_running (T : Trig α) (g : Game α) (hrun : g.running = true)
    (hpause : g.paused = false) : update T g = scoreCheck (beforeScore T g) := by
  simp [update, hrun, hpause]

theorem update_of_not_running (T : Trig α) (g : Game α)
    (h : ¬ (g.running = true ∧ g.paused = false)) : update T g = g := by
  unfold update
  rw [if_pos]
  cases hr : g.running <;> cases hp : g.paused <;> simp_all

@[simp]
theorem beforeScore_WIDTH (T : Trig α) (g : Game α) : (beforeScore T g).WIDTH = g.WIDTH := by
  simp [beforeScore, beforeCollision]

@[simp]
theorem beforeScore_ball_r (T : Trig α) (g : Game α) : (beforeScore T g).ball.r = g.ball.r := by
  simp [beforeScore, beforeCollision]

@[simp]
theorem beforeScore_player_score (T : Trig α) (g : Game α) :
    (beforeScore T g).player.score = g.player.score := by
  simp [beforeScore, beforeCollision]

@[simp]
theorem beforeScore_ai_score (T : Trig α) (g : Game α) :
    (beforeScore T g).ai.score = g.ai.score := by
  simp [beforeScore, beforeCollision]

@[simp]
theorem beforeScore_running (T : Trig α) (g : Game α) :
    (beforeScore T g).running = g.running := by
  simp [beforeScore, beforeCollision]

theorem goal_update (T : Trig α) :
    update T (rally 500 (-10) 300 (-5) 0) =
      pauseAndReset
        { (rally 500 (-15) 300 (-5) 0 : Game α) with
          ai := { (rally 500 (-15) 300 (-5) 0 : Game α).ai with score := 1 } } Side.ai := by
  simp [update, scoreCheck, beforeScore, paddleCollision, hitsPlayer, hitsAi,
    rectCircleColliding, playerRect, beforeCollision, wallCollision, moveBall, moveAi,
    movePlayer, rally, clamp]
  norm_num

theorem goal_beforeScore (T : Trig α) :
    (beforeScore T (rally 500 (-10) 300 (-5) 0)).ball.x = -15 := by
  simp [beforeScore, paddleCollision, hitsPlayer, hitsAi,
    rectCircleColliding, playerRect, beforeCollision, wallCollision, moveBall, moveAi,
    movePlayer, rally, clamp]
  norm_num

/-- C5. Scoring: in a running, unpaused game (canvas width and ball radius
non-negative), if after integration and collision handling `ball.x + ball.r < 0`
then `update` increases `ai.score` by exactly 1, leaves `player.score` unchanged
and enters the serve delay (`paused = true`, reset timer pending); if instead
`ball.x - ball.r > WIDTH` then `player.score` increases by exactly 1 and
`ai.score` is unchanged, again entering the serve delay; in every other update
both scores are unchanged. -/
theorem scoring (T : Trig α) (g : Game α) (hW : 0 ≤ g.WIDTH) (hr : 0 ≤ g.ball.r) :
    (g.running = true → g.paused = false →
        (beforeScore T g).ball.x + (beforeScore T g).ball.r < 0 →
        (update T g).ai.score = g.ai.score + 1 ∧ (update T g).player.score = g.player.score ∧
          (update T g).paused = true ∧ (update T g).timer = some Side.ai) ∧
      (g.running = true → g.paused = false →
        (beforeScore T g).ball.x - (beforeScore T g).ball.r > g.WIDTH →
        (update T g).player.score = g.player.score + 1 ∧ (update T g).ai.score = g.ai.score ∧
          (update T g).paused = true ∧ (update T g).timer = some Side.player) ∧
      (¬ (g.running = true ∧ g.paused = false ∧
          ((beforeScore T g).ball.x + (beforeScore T g).ball.r < 0 ∨
            (beforeScore T g).ball.x - (beforeScore T g).ball.r > g.WIDTH)) →
        (update T g).player.score = g.player.score ∧ (update T g).ai.score = g.ai.score) := by
  refine ⟨?_, ?_, ?_⟩
  · intro hrun hpause hx
    rw [update_of_running T g hrun hpause]
    unfold scoreCheck
    rw [if_pos hx]
    simp [pauseAndReset]
  · intro hrun hpause hx
    have hnot : ¬ (beforeScore T g).ball.x + (beforeScore T g).ball.r < 0 := by
      rw [beforeScore_ball_r] at hx ⊢
      intro h
      linarith
    rw [update_of_running T g hrun hpause]
    unfold scoreCheck
    rw [if_neg hnot, if_pos (by simpa using hx)]
    simp [pauseAndReset]
  · intro h
    by_cases hrp : g.running = true ∧ g.paused = false
    · rw [update_of_running T g hrp.1 hrp.2]
      have h1 : ¬ (beforeScore T g).ball.x + (beforeScore T g).ball.r < 0 :=
        fun hx => h ⟨hrp.1, hrp.2, Or.inl hx⟩
      have h2 : ¬ (beforeScore T g).ball.x - (beforeScore T g).ball.r > (beforeScore T g).WIDTH :=
        fun hx => h ⟨hrp.1, hrp.2, Or.inr (by simpa using hx)⟩
      unfold scoreCheck
      rw [if_neg h1, if_neg h2]
      simp
    · rw [update_of_not_running T g hrp]
      exact ⟨rfl, rfl⟩

theorem scoring_witness :
    (update (Trig.mk π cos sin) (rally 500 (-10) 300 (-5) 0)).ai.score =
        (rally 500 (-10) 300 (-5) 0 : Game ℝ).ai.score + 1 ∧
      (update (Trig.mk π cos sin) (rally 500 (-10) 300 (-5) 0)).player.score =
        (rally 500 (-10) 300 (-5) 0 : Game ℝ).player.score ∧
      (update (Trig.mk π cos sin) (rally 500 (-10) 300 (-5) 0)).paused = true ∧
      (update (Trig.mk π cos sin) (rally 500 (-10) 300 (-5) 0)).timer = some Side.ai :=
  (scoring (Trig.mk π cos sin) (rally 500 (-10) 300 (-5) 0) (by norm_num [rally])
    (by norm_num [rally])).1 rfl rfl (by rw [goal_beforeScore]; norm_num [rally])

/-- C6. Re-serve goes to the conceding side: for every random draw `u` in
`[0, 1)`, when the reset callback scheduled by `pauseAndReset(scorer)` fires, the
game is unpaused with the ball at the field centre `(WIDTH/2, HEIGHT/2)` and
speed 5, and `ball.vx < 0` (towards the player) if the ai scored, `ball.vx > 0`
(towards the ai) if the player scored. -/
theorem reserve_goes_to_conceding_side (g : Game ℝ) (scorer : Side) (u : ℝ)
    (hu0 : 0 ≤ u) (hu1 : u < 1) :
    (step (Trig.mk π cos sin) (pauseAndReset g scorer) (Event.timerFires u)).paused = false ∧
      (step (Trig.mk π cos sin) (pauseAndReset g scorer) (Event.timerFires u)).ball.x
        = g.WIDTH / 2 ∧
      (step (Trig.mk π cos sin) (pauseAndReset g scorer) (Event.timerFires u)).ball.y
        = g.HEIGHT / 2 ∧
      (step (Trig.mk π cos sin) (pauseAndReset g scorer) (Event.timerFires u)).ball.speed = 5 ∧
      (scorer = Side.ai →
        (step (Trig.mk π cos sin) (pauseAndReset g scorer) (Event.timerFires u)).ball.vx < 0) ∧
      (scorer = Side.player →
        0 < (step (Trig.mk π cos sin) (pauseAndReset g scorer) (Event.timerFires u)).ball.vx) := by
  have hpi := Real.pi_pos
  have hcos : 0 < cos (u * π / 4 - π / 8) := by
    apply Real.cos_pos_of_mem_Ioo
    constructor <;> nlinarith
  refine ⟨rfl, rfl, rfl, rfl, ?_, ?_⟩
  · rintro rfl
    simp [step, pauseAndReset, resetCallback, resetBall]
    exact hcos
  · rintro rfl
    simp [step, pauseAndReset, resetCallback, resetBall]
    exact hcos

theorem reserve_goes_to_conceding_side_witness :
    (step (Trig.mk π cos sin) (pauseAndReset (rally 500 (-15) 300 (-5) 0) Side.ai)
        (Event.timerFires (1 / 4))).paused = false ∧
      (step (Trig.mk π cos sin) (pauseAndReset (rally 500 (-15) 300 (-5) 0) Side.ai)
        (Event.timerFires (1 / 4))).ball.vx < 0 := by
  have h := reserve_goes_to_conceding_side (rally 500 (-15) 300 (-5) 0) Side.ai (1 / 4)
    (by norm_num) (by norm_num)
  exact ⟨h.1, h.2.2.2.2.1 rfl⟩

/-- An update that awards a point ends with a call of `pauseAndReset` on a
running game. -/
theorem update_scored_eq (T : Trig α) (g : Game α) (hrun : g.running = true)
    (hpause : g.paused = false)
    (hscore : (beforeScore T g).ball.x + (beforeScore T g).ball.r < 0 ∨
      (beforeScore T g).ball.x - (beforeScore T g).ball.r > g.WIDTH) :
    ∃ (g1 : Game α) (s : Side), g1.running = true ∧ update T g = pauseAndReset g1 s := by
  rw [update_of_running T g hrun hpause]
  unfold scoreCheck
  split_ifs with h1 h2
  · exact ⟨_, Side.ai, by simpa using hrun, rfl⟩
  · exact ⟨_, Side.player, by simpa using hrun, rfl⟩
  · rcases hscore with h | h
    · exact absurd h h1
    · exact absurd (by simpa using h) h2

/-- C7 (as stated, refuted). After a reachable goal (the ball passes a player
paddle parked at the bottom of the field), the game is paused with the reset
timer pending and the start button enabled; a click on it is not ignored: it
clears `paused`, and the next `update` runs the physics and awards a second
point for the same ball before the timer has fired. -/
theorem start_click_during_serve_delay_is_not_ignored :
    Reachable (Trig.mk π cos sin) 800 600 (rally 500 (-10) 300 (-5) 0) ∧
      (update (Trig.mk π cos sin) (rally 500 (-10) 300 (-5) 0)).paused = true ∧
      (update (Trig.mk π cos sin) (rally 500 (-10) 300 (-5) 0)).timer
        = some Side.ai ∧
      (update (Trig.mk π cos sin) (rally 500 (-10) 300 (-5) 0)).ai.score = 1 ∧
      (step (Trig.mk π cos sin)
        (update (Trig.mk π cos sin) (rally 500 (-10) 300 (-5) 0))
        (Event.startClick 0)).paused = false ∧
      step (Trig.mk π cos sin)
        (update (Trig.mk π cos sin) (rally 500 (-10) 300 (-5) 0))
        (Event.startClick 0) ≠
        update (Trig.mk π cos sin) (rally 500 (-10) 300 (-5) 0) ∧
      (update (Trig.mk π cos sin)
        (step (Trig.mk π cos sin)
          (update (Trig.mk π cos sin) (rally 500 (-10) 300 (-5) 0))
          (Event.startClick 0))).ai.score = 2 := by
  rw [goal_update]
  have hs : step (Trig.mk π cos sin)
      (pauseAndReset
        { (rally 500 (-15) 300 (-5) 0 : Game ℝ) with
          ai := { (rally 500 (-15) 300 (-5) 0 : Game ℝ).ai with score := 1 } } Side.ai)
      (Event.startClick 0) =
      { (rally 500 (-15) 300 (-5) 0 : Game ℝ) with
          ai := { (rally 500 (-15) 300 (-5) 0 : Game ℝ).ai with score := 1 }
          timer := some Side.ai } := by
    simp [step, startClick, pauseAndReset, rally]
  rw [hs]
  refine ⟨beforeGoal_reachable, rfl, rfl, rfl, rfl, ?_, ?_⟩
  · intro h
    have := congrArg Game.paused h
    simp [pauseAndReset, rally] at this
  · simp [update, scoreCheck, beforeScore, paddleCollision, hitsPlayer, hitsAi,
      rectCircleColliding, playerRect, beforeCollision, wallCollision, moveBall, moveAi,
      movePlayer, rally, clamp, pauseAndReset]
    norm_num

/-- C7 (amended). In every state that follows a score (the result of an update
of a running, unpaused game whose score check fired) the game is paused with
the reset timer pending, and the pause click handler leaves the whole state
unchanged; the start/resume click handler is not ignored: it sets
`paused = false` and swaps the two buttons' `disabled` flags, leaving
`running`, the ball, the paddles, the scores and the pending timer unchanged. -/
theorem serve_delay_click_handlers (T : Trig α) (g : Game α) (now : α)
    (hrun : g.running = true) (hpause : g.paused = false)
    (hscore : (beforeScore T g).ball.x + (beforeScore T g).ball.r < 0 ∨
      (beforeScore T g).ball.x - (beforeScore T g).ball.r > g.WIDTH) :
    (update T g).paused = true ∧ (update T g).timer.isSome = true ∧
      pauseClick (update T g) = update T g ∧
      startClick (update T g) now =
        { update T g with paused := false, startBtnDisabled := true, pauseBtnDisabled := false } := by
  obtain ⟨g1, s, h1, h⟩ := update_scored_eq T g hrun hpause hscore
  rw [h]
  refine ⟨rfl, rfl, rfl, ?_⟩
  simp [startClick, pauseAndReset, h1]

theorem serve_delay_click_handlers_witness :
    (update (Trig.mk π cos sin) (rally 500 (-10) 300 (-5) 0)).paused = true ∧
      (update (Trig.mk π cos sin) (rally 500 (-10) 300 (-5) 0)).timer.isSome = true ∧
      pauseClick (update (Trig.mk π cos sin) (rally 500 (-10) 300 (-5) 0)) =
        update (Trig.mk π cos sin) (rally 500 (-10) 300 (-5) 0) ∧
      startClick (update (Trig.mk π cos sin) (rally 500 (-10) 300 (-5) 0)) 0 =
        { update (Trig.mk π cos sin) (rally 500 (-10) 300 (-5) 0) with
          paused := false, startBtnDisabled := true, pauseBtnDisabled := false } :=
  serve_delay_click_handlers (Trig.mk π cos sin) (rally 500 (-10) 300 (-5) 0) 0 rfl rfl
    (Or.inl (by rw [goal_beforeScore]; norm_num [rally]))

end Scoring

/-! ## Ball invariants -/

section BallInvariants

variable {α : Type} [LinearOrderedField α]

open Real

theorem update_ball (T : Trig α) (g : Game α) :
    (update T g).ball = g.ball ∨
      (update T g).ball =
        (paddleCollision T (wallCollision (moveBall (moveAi (movePlayer g))))).ball := by
  unfold update
  split_ifs
  · exact Or.inl rfl
  · exact Or.inr (by simp [beforeScore, beforeCollision])

/-- A property of the ball that holds after every `resetBall` and is kept by
the ball's move, by the wall bounce and by the paddle collision holds in every
reachable state. -/
theorem ball_invariant_of_reachable (P : Ball α → Prop) (T : Trig α)
    (hreset : ∀ (g : Game α) (s : Side) (u : α), 0 ≤ u → u < 1 → P (resetBall T g s u).ball)
    (hmove : ∀ g : Game α, P g.ball → P (moveBall g).ball)
    (hwall : ∀ g : Game α, P g.ball → P (wallCollision g).ball)
    (hpaddle : ∀ g : Game α, P g.ball → P (paddleCollision T g).ball)
    (WIDTH HEIGHT : α) (g : Game α) (hg : Reachable T WIDTH HEIGHT g) : P g.ball := by
  induction hg with
  | init u hu0 hu1 => exact hreset _ _ u hu0 hu1
  | step g e he _ ih =>
    cases e with
    | update =>
      rcases update_ball T g with h | h
      · simp only [step, h]; exact ih
      · simp only [step, h]
        apply hpaddle
        apply hwall
        apply hmove
        simpa using ih
    | mousemove mouseY => exact ih
    | keydown code => cases code <;> exact ih
    | keyup code => cases code <;> exact ih
    | startClick now =>
      simp only [step, startClick]
      split_ifs <;> exact ih
    | pauseClick =>
      simp only [step, pauseClick]
      split_ifs <;> exact ih
    | frame timestamp =>
      simp only [Pong.step]
      split_ifs <;> exact ih
    | timerFires u =>
      simp only [step]
      split
      · exact hreset _ _ u he.1 he.2
      · exact ih

theorem paddleCollision_ball_speed (T : Trig α) (g : Game α) :
    (paddleCollision T g).ball.speed = g.ball.speed ∨
      (paddleCollision T g).ball.speed = min 12 (g.ball.speed + 1 / 2) := by
  unfold paddleCollision
  split_ifs
  · exact Or.inr rfl
  · exact Or.inr rfl
  · exact Or.inl rfl

theorem reflect_speed_bounds (T : Trig α) (g : Game α) (which : Side)
    (h2 : g.ball.speed ≤ 12) :
    (reflectBallFromPaddle T g which).ball.speed = min 12 (g.ball.speed + 1 / 2) ∧
      g.ball.speed ≤ (reflectBallFromPaddle T g which).ball.speed ∧
      (reflectBallFromPaddle T g which).ball.speed ≤ 12 := by
  refine ⟨rfl, ?_, ?_⟩
  · exact le_min h2 (by simp [reflectBallFromPaddle])
  · exact min_le_left _ _

/-- C8. Ball speed bounds and monotonicity: for every ball with
`5 ≤ speed ≤ 12`, `reflectBallFromPaddle` sets `ball.speed` to
`min(12, old speed + 0.5)`, hence `old speed ≤ new speed ≤ 12`; and in every
state reachable from the initial state, `5 ≤ ball.speed ≤ 12`. -/
theorem ball_speed_bounds (T : Trig α) :
    (∀ (g : Game α) (which : Side), 5 ≤ g.ball.speed → g.ball.speed ≤ 12 →
        (reflectBallFromPaddle T g which).ball.speed = min 12 (g.ball.speed + 1 / 2) ∧
          g.ball.speed ≤ (reflectBallFromPaddle T g which).ball.speed ∧
          (reflectBallFromPaddle T g which).ball.speed ≤ 12) ∧
      (∀ (WIDTH HEIGHT : α) (g : Game α), Reachable T WIDTH HEIGHT g →
        5 ≤ g.ball.speed ∧ g.ball.speed ≤ 12) := by
  refine ⟨fun g which _ h2 => reflect_speed_bounds T g which h2, fun WIDTH HEIGHT g hg => ?_⟩
  refine ball_invariant_of_reachable SpeedInRange T ?_ ?_ ?_ ?_ WIDTH HEIGHT g hg
  · intro g s u _ _
    simp [SpeedInRange, resetBall]
    norm_num
  · intro g h
    exact h
  · intro g h
    simpa [SpeedInRange] using h
  · intro g h
    rcases paddleCollision_ball_speed T g with h' | h'
    · simpa [SpeedInRange, h'] using h
    · simp only [SpeedInRange, h']
      exact ⟨le_min (by norm_num) (by linarith [h.1]), min_le_left _ _⟩

theorem ball_speed_bounds_witness :
    ((reflectBallFromPaddle (Trig.mk π cos sin) (rally 189 35 300 (-5) 0) Side.player).ball.speed =
        min 12 ((rally 189 35 300 (-5) 0 : Game ℝ).ball.speed + 1 / 2) ∧
      (rally 189 35 300 (-5) 0 : Game ℝ).ball.speed ≤
        (reflectBallFromPaddle (Trig.mk π cos sin) (rally 189 35 300 (-5) 0) Side.player).ball.speed ∧
      (reflectBallFromPaddle (Trig.mk π cos sin) (rally 189 35 300 (-5) 0) Side.player).ball.speed
        ≤ 12) ∧
      (5 ≤ (rally 189 40 300 (-5) 0 : Game ℝ).ball.speed ∧
        (rally 189 40 300 (-5) 0 : Game ℝ).ball.speed ≤ 12) :=
  ⟨(ball_speed_bounds (Trig.mk π cos sin)).1 (rally 189 35 300 (-5) 0) Side.player
      (by norm_num [rally]) (by norm_num [rally]),
    (ball_speed_bounds (Trig.mk π cos sin)).2 800 600 _ cornerHit_reachable⟩

/-- C10. Ball stays inside the field vertically: for every `HEIGHT ≥ 2 * ball.r`
and every running, unpaused state (any ball position and velocity), after one
call of `update` the ball satisfies `ball.r ≤ ball.y ≤ HEIGHT - ball.r`. -/
theorem ball_stays_inside_vertically (T : Trig α) (g : Game α) (hH : 2 * g.ball.r ≤ g.HEIGHT)
    (hrun : g.running = true) (hpause : g.paused = false) :
    g.ball.r ≤ (update T g).ball.y ∧ (update T g).ball.y ≤ g.HEIGHT - g.ball.r := by
  rw [update_of_running T g hrun hpause]
  simp only [scoreCheck_ball, beforeScore, paddleCollision_ball_y, beforeCollision]
  unfold wallCollision
  simp only [moveBall_ball_r, moveBall_HEIGHT, moveAi_ball, moveAi_HEIGHT, movePlayer_ball,
    movePlayer_HEIGHT]
  split_ifs with h1 h2
  · simp only; constructor <;> linarith
  · simp only; constructor <;> linarith
  · constructor <;> linarith

theorem ball_stays_inside_vertically_witness :
    (rally 250 400 595 3 4 : Game ℝ).ball.r ≤
        (update (Trig.mk π cos sin) (rally 250 400 595 3 4)).ball.y ∧
      (update (Trig.mk π cos sin) (rally 250 400 595 3 4)).ball.y ≤
        (rally 250 400 595 3 4 : Game ℝ).HEIGHT - (rally 250 400 595 3 4 : Game ℝ).ball.r :=
  ball_stays_inside_vertically (Trig.mk π cos sin) (rally 250 400 595 3 4) (by norm_num [rally])
    rfl rfl

end BallInvariants

/-! ## The wall bounce -/

section WallBounce

variable {α : Type} [LinearOrderedField α]

open Real

theorem beforeCollision_ball_vx (g : Game α) : (beforeCollision g).ball.vx = g.ball.vx := by
  simp [beforeCollision]

theorem beforeCollision_ball_vy (g : Game α) :
    (beforeCollision g).ball.vy =
      if g.ball.y + g.ball.vy - g.ball.r ≤ 0 ∨ g.ball.y + g.ball.vy + g.ball.r ≥ g.HEIGHT
      then -g.ball.vy else g.ball.vy := by
  unfold beforeCollision wallCollision
  simp only [moveBall_ball_r, moveBall_HEIGHT, moveAi_ball, moveAi_HEIGHT, movePlayer_ball,
    movePlayer_HEIGHT]
  have hy : (moveBall (moveAi (movePlayer g))).ball.y = g.ball.y + g.ball.vy := rfl
  have hv : (moveBall (moveAi (movePlayer g))).ball.vy = g.ball.vy := rfl
  rw [hy]
  by_cases h1 : g.ball.y + g.ball.vy - g.ball.r ≤ 0
  · simp [h1, hv]
  · by_cases h2 : g.ball.y + g.ball.vy + g.ball.r ≥ g.HEIGHT
    · simp only [h1, h2, if_true, if_false, or_true]
      simp [hv]
    · simp only [h1, h2, if_false, or_self]
      exact hv

theorem paddleCollision_of_no_hit (T : Trig α) (g : Game α) (h1 : hitsPlayer g = false)
    (h2 : hitsAi g = false) : paddleCollision T g = g := by
  simp [paddleCollision, h1, h2]

/-- C11. Wall bounce inverts `vy` exactly on contact: in a running, unpaused
update, with `y1 = ball.y + ball.vy` the integrated position, the vertical
velocity after the wall step is `-ball.vy` if `y1 - ball.r ≤ 0` or
`y1 + ball.r ≥ HEIGHT` and is `ball.vy` otherwise; `ball.vx` is not changed by
the wall step; and in an update with no paddle collision these are the final
`ball.vy` and `ball.vx`. -/
theorem wall_bounce_inverts_vy (T : Trig α) (g : Game α) (hrun : g.running = true)
    (hpause : g.paused = false) :
    (beforeCollision g).ball.vy =
        (if g.ball.y + g.ball.vy - g.ball.r ≤ 0 ∨ g.ball.y + g.ball.vy + g.ball.r ≥ g.HEIGHT
          then -g.ball.vy else g.ball.vy) ∧
      (beforeCollision g).ball.vx = g.ball.vx ∧
      (wallCollision (moveBall (moveAi (movePlayer g)))).ball.vx =
        (moveBall (moveAi (movePlayer g))).ball.vx ∧
      (hitsPlayer (beforeCollision g) = false → hitsAi (beforeCollision g) = false →
        (update T g).ball.vy =
          (if g.ball.y + g.ball.vy - g.ball.r ≤ 0 ∨ g.ball.y + g.ball.vy + g.ball.r ≥ g.HEIGHT
            then -g.ball.vy else g.ball.vy) ∧
        (update T g).ball.vx = g.ball.vx) := by
  refine ⟨beforeCollision_ball_vy g, beforeCollision_ball_vx g, wallCollision_ball_vx _, ?_⟩
  intro h1 h2
  rw [update_of_running T g hrun hpause, scoreCheck_ball, beforeScore,
    paddleCollision_of_no_hit T _ h1 h2]
  exact ⟨beforeCollision_ball_vy g, beforeCollision_ball_vx g⟩

theorem wall_bounce_inverts_vy_witness :
    (update (Trig.mk π cos sin) (rally 250 400 595 3 4)).ball.vy =
        (if (rally 250 400 595 3 4 : Game ℝ).ball.y + (rally 250 400 595 3 4 : Game ℝ).ball.vy -
              (rally 250 400 595 3 4 : Game ℝ).ball.r ≤ 0 ∨
            (rally 250 400 595 3 4 : Game ℝ).ball.y + (rally 250 400 595 3 4 : Game ℝ).ball.vy +
              (rally 250 400 595 3 4 : Game ℝ).ball.r ≥ (rally 250 400 595 3 4 : Game ℝ).HEIGHT
          then -(rally 250 400 595 3 4 : Game ℝ).ball.vy
          else (rally 250 400 595 3 4 : Game ℝ).ball.vy) ∧
      (update (Trig.mk π cos sin) (rally 250 400 595 3 4)).ball.vx =
        (rally 250 400 595 3 4 : Game ℝ).ball.vx := by
  have hb : beforeCollision (rally 250 400 595 3 4 : Game ℝ) =
      { (rally 250 403 588 3 (-4) : Game ℝ) with
        ai := { (rally 250 403 588 3 (-4) : Game ℝ).ai with y := 254 } } := by
    simp [beforeCollision, wallCollision, moveBall, moveAi, movePlayer, rally, clamp]
    norm_num
  refine (wall_bounce_inverts_vy (Trig.mk π cos sin) (rally 250 400 595 3 4) rfl rfl).2.2.2 ?_ ?_
  · rw [hb]
    simp [hitsPlayer, rally]
  · rw [hb]
    simp [hitsAi, rectCircleColliding, aiRect, rally, clamp]
    norm_num

theorem run_replicate_update (T : Trig α) (n : ℕ) (g : Game α) :
    run T g (List.replicate n Event.update) = Nat.iterate (update T) n g := by
  induction n generalizing g with
  | zero => rfl
  | succ n ih =>
    rw [List.replicate_succ, Function.iterate_succ_apply]
    exact ih (update T g)

end WallBounce

/-! ## The frame loop and the pause button -/

section Loop

variable {α : Type} [LinearOrderedField α] [FloorRing α]

open Real

/-- C14. At least one step per frame: for every `timestamp` and `lastTime`, the
number of fixed steps `max(1, floor((timestamp - lastTime) / 16.6667))` computed
by `loop` is an integer `≥ 1`, and it is exactly 1 whenever the elapsed time is
zero or negative. -/
theorem at_least_one_step_per_frame (timestamp lastTime : α) :
    1 ≤ loopSteps timestamp lastTime ∧
      (timestamp - lastTime ≤ 0 → loopSteps timestamp lastTime = 1) := by
  refine ⟨le_max_left _ _, fun h => ?_⟩
  unfold loopSteps
  apply max_eq_left
  have hd : (timestamp - lastTime) / (166667 / 10000) ≤ 0 :=
    div_nonpos_of_nonpos_of_nonneg h (by norm_num)
  exact (Int.floor_nonpos hd).trans (by norm_num)

theorem at_least_one_step_per_frame_witness : loopSteps (0 : ℝ) 5 = 1 :=
  (at_least_one_step_per_frame (0 : ℝ) 5).2 (by norm_num)

theorem loop_eq_iterate (T : Trig α) (g : Game α) (timestamp : α) :
    loop T g timestamp =
      Nat.iterate (update T) (loopUpdateCalls g timestamp)
        (if g.running then { g with lastTime := timestamp } else g) := by
  unfold loop loopUpdateCalls
  cases hr : g.running <;> cases hp : g.paused <;> simp [hp]

/-- A run of `loop` is the frame bookkeeping followed by `loopUpdateCalls`
calls of `update`. -/
theorem loop_eq_run (T : Trig α) (g : Game α) (timestamp : α) :
    loop T g timestamp =
      run T g (Event.frame timestamp ::
        List.replicate (loopUpdateCalls g timestamp) Event.update) := by
  rw [loop_eq_iterate, ← run_replicate_update]
  rfl

/-- The states that `loop` produces from reachable states are reachable. -/
theorem reachable_loop (T : Trig α) (WIDTH HEIGHT : α) (g : Game α) (timestamp : α)
    (hg : Reachable T WIDTH HEIGHT g) : Reachable T WIDTH HEIGHT (loop T g timestamp) := by
  rw [loop_eq_run]
  apply Reachable.run _ _ _ _ _ _ hg
  intro e he
  rcases List.mem_cons.mp he with rfl | h
  · trivial
  · rw [List.eq_of_mem_replicate h]
    trivial

/-- C15. No physics while paused: for every state with `running = false` or
`paused = true`, `update` leaves the whole game state unchanged; and when
`paused = true`, `loop` executes the call of `update` zero times (it only
records the timestamp when the game is running). -/
theorem no_physics_while_paused (T : Trig α) (g : Game α) (timestamp : α)
    (h : g.running = false ∨ g.paused = true) :
    update T g = g ∧
      (g.paused = true → loopUpdateCalls g timestamp = 0 ∧
        loop T g timestamp = if g.running then { g with lastTime := timestamp } else g) := by
  constructor
  · apply update_of_not_running
    rintro ⟨h1, h2⟩
    rcases h with h | h
    · rw [h] at h1; exact Bool.noConfusion h1
    · rw [h] at h2; exact Bool.noConfusion h2
  · intro hp
    have hc : loopUpdateCalls g timestamp = 0 := by
      unfold loopUpdateCalls
      cases hr : g.running <;> simp [hp]
    refine ⟨hc, ?_⟩
    rw [loop_eq_iterate, hc]
    rfl

theorem no_physics_while_paused_witness :
    update (Trig.mk π cos sin) (pauseClick (rally 250 400 300 (-5) 0)) =
        pauseClick (rally 250 400 300 (-5) 0) ∧
      loopUpdateCalls (pauseClick (rally 250 400 300 (-5) 0 : Game ℝ)) 1000 = 0 := by
  have h := no_physics_while_paused (Trig.mk π cos sin) (pauseClick (rally 250 400 300 (-5) 0)) 1000
    (Or.inr rfl)
  exact ⟨h.1, (h.2 rfl).1⟩

end Loop

section Pause

/-- C16. Pause is idempotent: for every game state, applying the pause click
handler twice in a row yields the same state as applying it once; after it
`paused = true`, and `running`, the paddles (with their scores) and the ball
are unchanged. -/
theorem pause_is_idempotent {α : Type} (g : Game α) :
    pauseClick (pauseClick g) = pauseClick g ∧
      (pauseClick g).paused = true ∧ (pauseClick g).running = g.running ∧
      (pauseClick g).player = g.player ∧ (pauseClick g).ai = g.ai ∧
      (pauseClick g).ball = g.ball :=
  ⟨rfl, rfl, rfl, rfl, rfl, rfl⟩

end Pause

/-! ## Bounce and serve angles -/

section Angles

open Real

/-- C12. Bounce angle at centre and edge: for either paddle (of non-zero
height) and every ball speed, `reflectBallFromPaddle` with `ball.y` at the
paddle's centre uses the angle 0 and gives `ball.vy = 0` and
`ball.vx = direction * newSpeed`; with `ball.y = paddle.y` it uses the angle
`-5π/12` and with `ball.y = paddle.y + paddle.height` the angle `+5π/12`, giving
`ball.vx = direction * newSpeed * cos(5π/12)` and
`ball.vy = ∓ newSpeed * sin(5π/12)`, where `newSpeed = min(12, speed + 0.5)` and
`direction` is `+1` for the player paddle and `-1` for the ai paddle. -/
theorem bounce_angle_at_centre_and_edge (g : Game ℝ) (which : Side)
    (hh : (paddleOf g which).height ≠ 0) :
    (g.ball.y = (paddleOf g which).y + (paddleOf g which).height / 2 →
        bounceAngle (Trig.mk π cos sin) g which = 0 ∧
        (reflectBallFromPaddle (Trig.mk π cos sin) g which).ball.vy = 0 ∧
        (reflectBallFromPaddle (Trig.mk π cos sin) g which).ball.vx =
          (if which = Side.player then 1 else -1) * min 12 (g.ball.speed + 1 / 2)) ∧
      (g.ball.y = (paddleOf g which).y →
        bounceAngle (Trig.mk π cos sin) g which = -(5 * π / 12) ∧
        (reflectBallFromPaddle (Trig.mk π cos sin) g which).ball.vx =
          (if which = Side.player then 1 else -1) * min 12 (g.ball.speed + 1 / 2) *
            cos (5 * π / 12) ∧
        (reflectBallFromPaddle (Trig.mk π cos sin) g which).ball.vy =
          -(min 12 (g.ball.speed + 1 / 2) * sin (5 * π / 12))) ∧
      (g.ball.y = (paddleOf g which).y + (paddleOf g which).height →
        bounceAngle (Trig.mk π cos sin) g which = 5 * π / 12 ∧
        (reflectBallFromPaddle (Trig.mk π cos sin) g which).ball.vx =
          (if which = Side.player then 1 else -1) * min 12 (g.ball.speed + 1 / 2) *
            cos (5 * π / 12) ∧
        (reflectBallFromPaddle (Trig.mk π cos sin) g which).ball.vy =
          min 12 (g.ball.speed + 1 / 2) * sin (5 * π / 12)) := by
  have hh2 : (paddleOf g which).height / 2 ≠ 0 := div_ne_zero hh (by norm_num)
  refine ⟨fun hy => ?_, fun hy => ?_, fun hy => ?_⟩
  · have hb : bounceAngle (Trig.mk π cos sin) g which = 0 := by
      simp [bounceAngle, relativeIntersectY, hy]
    simp [reflectBallFromPaddle, hb]
  · have hrel : relativeIntersectY g which = -1 := by
      simp only [relativeIntersectY, hy]
      field_simp
      ring
    have hb : bounceAngle (Trig.mk π cos sin) g which = -(5 * π / 12) := by
      simp only [bounceAngle, hrel]; ring
    simp [reflectBallFromPaddle, hb]
  · have hrel : relativeIntersectY g which = 1 := by
      simp only [relativeIntersectY, hy]
      field_simp
      ring
    have hb : bounceAngle (Trig.mk π cos sin) g which = 5 * π / 12 := by
      simp only [bounceAngle, hrel]; ring
    simp [reflectBallFromPaddle, hb]

theorem bounce_angle_at_centre_and_edge_witness :
    bounceAngle (Trig.mk π cos sin) (rally 189 35 239 (-5) 0) Side.player = 0 ∧
      (reflectBallFromPaddle (Trig.mk π cos sin) (rally 189 35 239 (-5) 0) Side.player).ball.vy = 0 ∧
      (reflectBallFromPaddle (Trig.mk π cos sin) (rally 189 35 239 (-5) 0) Side.player).ball.vx =
        (if Side.player = Side.player then 1 else -1) *
          min 12 ((rally 189 35 239 (-5) 0 : Game ℝ).ball.speed + 1 / 2) :=
  (bounce_angle_at_centre_and_edge (rally 189 35 239 (-5) 0) Side.player
    (by norm_num [paddleOf, rally])).1 (by norm_num [paddleOf, rally])

theorem serveAngle_bounds (u : ℝ) (hu0 : 0 ≤ u) (hu1 : u < 1) :
    -(π / 8) ≤ serveAngle (Trig.mk π cos sin) u ∧ serveAngle (Trig.mk π cos sin) u ≤ π / 8 := by
  have hpi := Real.pi_pos
  simp only [serveAngle]
  constructor <;> nlinarith

/-- C13. Serve bounds: for every random draw `u` in `[0, 1)` and every serve
side, `resetBall` places the ball at `(WIDTH/2, HEIGHT/2)` with speed 5 and
launch angle `u*π/4 - π/8` in `[-π/8, π/8]`, so that `|ball.vy| ≤ 5 sin(π/8)`,
and `ball.vx < 0` when `servingTo` is `'player'` while `ball.vx > 0` when it is
`'ai'`. -/
theorem serve_bounds (g : Game ℝ) (servingTo : Side) (u : ℝ) (hu0 : 0 ≤ u) (hu1 : u < 1) :
    (resetBall (Trig.mk π cos sin) g servingTo u).ball.x = g.WIDTH / 2 ∧
      (resetBall (Trig.mk π cos sin) g servingTo u).ball.y = g.HEIGHT / 2 ∧
      (resetBall (Trig.mk π cos sin) g servingTo u).ball.speed = 5 ∧
      serveAngle (Trig.mk π cos sin) u = u * π / 4 - π / 8 ∧
      (-(π / 8) ≤ serveAngle (Trig.mk π cos sin) u ∧
        serveAngle (Trig.mk π cos sin) u ≤ π / 8) ∧
      (resetBall (Trig.mk π cos sin) g servingTo u).ball.vx =
        (if servingTo = Side.player then -1 else 1) * 5 *
          cos (serveAngle (Trig.mk π cos sin) u) ∧
      (resetBall (Trig.mk π cos sin) g servingTo u).ball.vy =
        5 * sin (serveAngle (Trig.mk π cos sin) u) ∧
      |(resetBall (Trig.mk π cos sin) g servingTo u).ball.vy| ≤ 5 * sin (π / 8) ∧
      (servingTo = Side.player → (resetBall (Trig.mk π cos sin) g servingTo u).ball.vx < 0) ∧
      (servingTo = Side.ai → 0 < (resetBall (Trig.mk π cos sin) g servingTo u).ball.vx) := by
  have hpi := Real.pi_pos
  obtain ⟨ha1, ha2⟩ := serveAngle_bounds u hu0 hu1
  have hcos : 0 < cos (serveAngle (Trig.mk π cos sin) u) := by
    apply Real.cos_pos_of_mem_Ioo
    constructor <;> linarith
  have hs1 : sin (serveAngle (Trig.mk π cos sin) u) ≤ sin (π / 8) :=
    Real.sin_le_sin_of_le_of_le_pi_div_two (by linarith) (by linarith) ha2
  have hs2 : -sin (π / 8) ≤ sin (serveAngle (Trig.mk π cos sin) u) := by
    rw [← Real.sin_neg]
    exact Real.sin_le_sin_of_le_of_le_pi_div_two (by linarith) (by linarith) ha1
  have hvy : (resetBall (Trig.mk π cos sin) g servingTo u).ball.vy =
      5 * sin (serveAngle (Trig.mk π cos sin) u) := rfl
  have hvx : (resetBall (Trig.mk π cos sin) g servingTo u).ball.vx =
      (if servingTo = Side.player then -1 else 1) * 5 *
        cos (serveAngle (Trig.mk π cos sin) u) := rfl
  refine ⟨rfl, rfl, rfl, rfl, ⟨ha1, ha2⟩, hvx, hvy, ?_, ?_, ?_⟩
  · rw [hvy, abs_le]
    constructor <;> linarith
  · rintro rfl
    rw [hvx]
    simp only [if_true]
    linarith
  · rintro rfl
    rw [hvx]
    simp
    exact hcos
theorem serve_bounds_witness :
    |(resetBall (Trig.mk π cos sin) (rally 250 400 300 (-5) 0) Side.player (1 / 4)).ball.vy| ≤
        5 * sin (π / 8) ∧
      (resetBall (Trig.mk π cos sin) (rally 250 400 300 (-5) 0) Side.player (1 / 4)).ball.vx < 0 := by
  have h := serve_bounds (rally 250 400 300 (-5) 0) Side.player (1 / 4) (by norm_num)
    (by norm_num)
  exact ⟨h.2.2.2.2.2.2.2.1, h.2.2.2.2.2.2.2.2.1 rfl⟩

end Angles

/-! ## The collision test and its resolution -/

section Collision

variable {α : Type} [LinearOrderedField α]

open Real

/-- The clamped value is the point of `[a, b]` nearest to `v`. -/
theorem clamp_nearest (v a b p : α) (h1 : a ≤ p) (h2 : p ≤ b) :
    (v - clamp v a b) * (v - clamp v a b) ≤ (v - p) * (v - p) := by
  have hab : a ≤ b := h1.trans h2
  rcases le_total v a with h | h
  · rw [clamp_of_le _ _ _ h hab]
    nlinarith
  · rcases le_total v b with h' | h'
    · rw [clamp_of_mem _ _ _ h h']
      nlinarith [mul_self_nonneg (v - p)]
    · rw [clamp_of_ge _ _ _ h' hab]
      nlinarith

/-- C17. `rectCircleColliding` is the standard circle-vs-rectangle test: for
every circle and every rectangle with `width ≥ 0` and `height ≥ 0`, it returns
true if and only if some point `(px, py)` of the rectangle satisfies
`(circle.x - px)^2 + (circle.y - py)^2 < r^2` (for any `r`, in particular for
`r ≥ 0`). -/
theorem rectCircleColliding_iff_exists_point (c : Ball α) (rc : Rect α)
    (hw : 0 ≤ rc.width) (hh : 0 ≤ rc.height) :
    rectCircleColliding c rc = true ↔
      ∃ px py : α, rc.x ≤ px ∧ px ≤ rc.x + rc.width ∧ rc.y ≤ py ∧ py ≤ rc.y + rc.height ∧
        (c.x - px) ^ 2 + (c.y - py) ^ 2 < c.r ^ 2 := by
  simp only [rectCircleColliding, decide_eq_true_eq]
  constructor
  · intro h
    obtain ⟨hx1, hx2⟩ := clamp_bounds c.x rc.x (rc.x + rc.width) (by linarith)
    obtain ⟨hy1, hy2⟩ := clamp_bounds c.y rc.y (rc.y + rc.height) (by linarith)
    refine ⟨_, _, hx1, hx2, hy1, hy2, ?_⟩
    simpa only [sq] using h
  · rintro ⟨px, py, hx1, hx2, hy1, hy2, h⟩
    have hx := clamp_nearest c.x rc.x (rc.x + rc.width) px hx1 hx2
    have hy := clamp_nearest c.y rc.y (rc.y + rc.height) py hy1 hy2
    simp only [sq] at h
    linarith

theorem rectCircleColliding_iff_exists_point_witness :
    rectCircleColliding (Ball.mk (35 : ℝ) 300 12 5 (-5) 0) (Rect.mk 20 189 14 100) = true ↔
      ∃ px py : ℝ, (Rect.mk (20 : ℝ) 189 14 100).x ≤ px ∧
        px ≤ (Rect.mk (20 : ℝ) 189 14 100).x + (Rect.mk (20 : ℝ) 189 14 100).width ∧
        (Rect.mk (20 : ℝ) 189 14 100).y ≤ py ∧
        py ≤ (Rect.mk (20 : ℝ) 189 14 100).y + (Rect.mk (20 : ℝ) 189 14 100).height ∧
        ((Ball.mk (35 : ℝ) 300 12 5 (-5) 0).x - px) ^ 2 +
          ((Ball.mk (35 : ℝ) 300 12 5 (-5) 0).y - py) ^ 2 <
          (Ball.mk (35 : ℝ) 300 12 5 (-5) 0).r ^ 2 :=
  rectCircleColliding_iff_exists_point (Ball.mk (35 : ℝ) 300 12 5 (-5) 0) (Rect.mk 20 189 14 100)
    (by norm_num) (by norm_num)

/-- A circle whose centre is exactly `r` to the right of the rectangle's right
edge does not collide with it, whatever its height. -/
theorem not_colliding_right_of (c : Ball α) (rc : Rect α) (hr : 0 ≤ c.r) (hw : 0 ≤ rc.width)
    (hx : c.x = rc.x + rc.width + c.r) : rectCircleColliding c rc = false := by
  have hcx : clamp c.x rc.x (rc.x + rc.width) = rc.x + rc.width :=
    clamp_of_ge _ _ _ (by linarith) (by linarith)
  simp only [rectCircleColliding, hcx, decide_eq_false_iff_not, not_lt]
  have hd : c.x - (rc.x + rc.width) = c.r := by linarith
  rw [hd]
  nlinarith [mul_self_nonneg (c.y - clamp c.y rc.y (rc.y + rc.height))]

/-- A circle whose centre is exactly `r` to the left of the rectangle's left
edge does not collide with it, whatever its height. -/
theorem not_colliding_left_of (c : Ball α) (rc : Rect α) (hr : 0 ≤ c.r) (hw : 0 ≤ rc.width)
    (hx : c.x = rc.x - c.r) : rectCircleColliding c rc = false := by
  have hcx : clamp c.x rc.x (rc.x + rc.width) = rc.x :=
    clamp_of_le _ _ _ (by linarith) (by linarith)
  simp only [rectCircleColliding, hcx, decide_eq_false_iff_not, not_lt]
  have hd : c.x - rc.x = -c.r := by linarith
  rw [hd]
  nlinarith [mul_self_nonneg (c.y - clamp c.y rc.y (rc.y + rc.height))]

theorem update_ball_x_of_hitsPlayer (T : Trig α) (g : Game α) (hrun : g.running = true)
    (hpause : g.paused = false) (h : hitsPlayer (beforeCollision g) = true) :
    (update T g).ball =
      (reflectBallFromPaddle T
        { beforeCollision g with
          ball := { (beforeCollision g).ball with
            x := (beforeCollision g).player.x + (beforeCollision g).player.width +
              (beforeCollision g).ball.r } } Side.player).ball := by
  rw [update_of_running T g hrun hpause, scoreCheck_ball, beforeScore]
  unfold paddleCollision
  rw [if_pos h]

theorem update_ball_x_of_hitsAi (T : Trig α) (g : Game α) (hrun : g.running = true)
    (hpause : g.paused = false) (h1 : hitsPlayer (beforeCollision g) = false)
    (h2 : hitsAi (beforeCollision g) = true) :
    (update T g).ball =
      (reflectBallFromPaddle T
        { beforeCollision g with
          ball := { (beforeCollision g).ball with
            x := (beforeCollision g).ai.x - (beforeCollision g).ball.r } } Side.ai).ball := by
  rw [update_of_running T g hrun hpause, scoreCheck_ball, beforeScore]
  unfold paddleCollision
  rw [if_neg (by simp [h1]), if_pos h2]

@[simp]
theorem beforeCollision_player_x (g : Game α) : (beforeCollision g).player.x = g.player.x := by
  simp [beforeCollision]

@[simp]
theorem beforeCollision_player_width (g : Game α) :
    (beforeCollision g).player.width = g.player.width := by
  simp [beforeCollision]

@[simp]
theorem beforeCollision_player_height (g : Game α) :
    (beforeCollision g).player.height = g.player.height := by
  simp [beforeCollision]

@[simp]
theorem beforeCollision_ai_x (g : Game α) : (beforeCollision g).ai.x = g.ai.x := by
  simp [beforeCollision]

@[simp]
theorem beforeCollision_ai_width (g : Game α) : (beforeCollision g).ai.width = g.ai.width := by
  simp [beforeCollision]

@[simp]
theorem beforeCollision_ball_r (g : Game α) : (beforeCollision g).ball.r = g.ball.r := by
  simp [beforeCollision]

@[simp]
theorem beforeCollision_WIDTH (g : Game α) : (beforeCollision g).WIDTH = g.WIDTH := by
  simp [beforeCollision]

theorem update_player_geometry (T : Trig α) (g : Game α) :
    (update T g).player.x = g.player.x ∧ (update T g).player.width = g.player.width ∧
      (update T g).ai.x = g.ai.x ∧ (update T g).ai.width = g.ai.width ∧
      (update T g).ball.r = g.ball.r := by
  unfold update
  split_ifs
  · exact ⟨rfl, rfl, rfl, rfl, rfl⟩
  · simp [beforeScore]

theorem approach_beforeCollision :
    beforeCollision (rally 250 50 300 (-5) 0 : Game α) = rally 250 45 300 (-5) 0 := by
  simp [beforeCollision, wallCollision, moveBall, moveAi, movePlayer, rally, clamp]
  norm_num

theorem approach_hitsPlayer :
    hitsPlayer (beforeCollision (rally 250 50 300 (-5) 0 : Game α)) = true := by
  rw [approach_beforeCollision]
  simp [hitsPlayer, rectCircleColliding, playerRect, rally, clamp]
  norm_num

/-- C18. Collision resolution leaves no overlap: in a running, unpaused update
that resolves a collision with a paddle (ball radius and paddle widths
non-negative), the ball is repositioned at `player.x + player.width + ball.r`
for the left paddle, at `ai.x - ball.r` for the right paddle, and after the
update `rectCircleColliding(ball, that paddle's rectangle)` is false, whatever
`ball.y` is. -/
theorem collision_resolution_leaves_no_overlap (T : Trig α) (g : Game α)
    (hrun : g.running = true) (hpause : g.paused = false) (hr : 0 ≤ g.ball.r)
    (hpw : 0 ≤ g.player.width) (haw : 0 ≤ g.ai.width) :
    (hitsPlayer (beforeCollision g) = true →
        (update T g).ball.x = g.player.x + g.player.width + g.ball.r ∧
        ∀ y : α, rectCircleColliding { (update T g).ball with y := y }
          (playerRect (update T g)) = false) ∧
      (hitsPlayer (beforeCollision g) = false → hitsAi (beforeCollision g) = true →
        (update T g).ball.x = g.ai.x - g.ball.r ∧
        ∀ y : α, rectCircleColliding { (update T g).ball with y := y }
          (aiRect (update T g)) = false) := by
  obtain ⟨hg1, hg2, hg3, hg4, hg5⟩ := update_player_geometry T g
  constructor
  · intro h
    have hx : (update T g).ball.x = g.player.x + g.player.width + g.ball.r := by
      rw [update_ball_x_of_hitsPlayer T g hrun hpause h]
      simp [reflectBallFromPaddle]
    refine ⟨hx, fun y => ?_⟩
    apply not_colliding_right_of
    · simpa [hg5] using hr
    · simpa [playerRect, hg2] using hpw
    · simp [playerRect, hg1, hg2, hg5, hx]
  · intro h1 h2
    have hx : (update T g).ball.x = g.ai.x - g.ball.r := by
      rw [update_ball_x_of_hitsAi T g hrun hpause h1 h2]
      simp [reflectBallFromPaddle]
    refine ⟨hx, fun y => ?_⟩
    apply not_colliding_left_of
    · simpa [hg5] using hr
    · simpa [aiRect, hg4] using haw
    · simp [aiRect, hg3, hg5, hx]

theorem collision_resolution_leaves_no_overlap_witness :
    (update (Trig.mk π cos sin) (rally 250 50 300 (-5) 0)).ball.x =
        (rally 250 50 300 (-5) 0 : Game ℝ).player.x +
          (rally 250 50 300 (-5) 0 : Game ℝ).player.width +
          (rally 250 50 300 (-5) 0 : Game ℝ).ball.r ∧
      ∀ y : ℝ, rectCircleColliding
        { (update (Trig.mk π cos sin) (rally 250 50 300 (-5) 0)).ball with y := y }
        (playerRect (update (Trig.mk π cos sin) (rally 250 50 300 (-5) 0))) = false :=
  (collision_resolution_leaves_no_overlap (Trig.mk π cos sin) (rally 250 50 300 (-5) 0) rfl rfl
    (by norm_num [rally]) (by norm_num [rally]) (by norm_num [rally])).1 approach_hitsPlayer

end Collision

/-! ## The ai paddle -/

section Ai

variable {α : Type} [LinearOrderedField α]

open Real

theorem update_ai_y (T : Trig α) (g : Game α) (hrun : g.running = true)
    (hpause : g.paused = false) : (update T g).ai.y = (moveAi (movePlayer g)).ai.y := by
  rw [update_of_running T g hrun hpause]
  simp [beforeScore, beforeCollision]

/-- C19. AI dead zone and fixed speed: in a running, unpaused update with the
source speeds (`ai.speed = 4`, `player.speed = 6`) and
`0 ≤ ai.y ≤ HEIGHT - ai.height`, with `c = ai.y + ai.height/2` the paddle centre
before the step and `ball.y` taken before the ball moves: if `|ball.y - c| ≤ 6`
then `ai.y` is unchanged; if `ball.y < c - 6` the new `ai.y` is
`max(0, ai.y - 4)`; if `ball.y > c + 6` it is `min(HEIGHT - ai.height, ai.y + 4)`;
hence `|new ai.y - ai.y| ≤ 4`, and the ai speed is strictly less than the
player's keyboard speed. -/
theorem ai_dead_zone_and_fixed_speed (T : Trig α) (g : Game α) (hrun : g.running = true)
    (hpause : g.paused = false) (hs : g.ai.speed = 4) (hps : g.player.speed = 6)
    (h0 : 0 ≤ g.ai.y) (h1 : g.ai.y ≤ g.HEIGHT - g.ai.height) :
    (|g.ball.y - (g.ai.y + g.ai.height / 2)| ≤ 6 → (update T g).ai.y = g.ai.y) ∧
      (g.ball.y < g.ai.y + g.ai.height / 2 - 6 → (update T g).ai.y = max 0 (g.ai.y - 4)) ∧
      (g.ball.y > g.ai.y + g.ai.height / 2 + 6 →
        (update T g).ai.y = min (g.HEIGHT - g.ai.height) (g.ai.y + 4)) ∧
      |(update T g).ai.y - g.ai.y| ≤ 4 ∧ g.ai.speed < g.player.speed := by
  rw [update_ai_y T g hrun hpause]
  have hy : (moveAi (movePlayer g)).ai.y =
      clamp (if g.ball.y < g.ai.y + g.ai.height / 2 - 6 then g.ai.y - 4
        else if g.ball.y > g.ai.y + g.ai.height / 2 + 6 then g.ai.y + 4 else g.ai.y)
        0 (g.HEIGHT - g.ai.height) := by
    simp [moveAi, hs]
  have hup : clamp (g.ai.y - 4) 0 (g.HEIGHT - g.ai.height) = max 0 (g.ai.y - 4) := by
    unfold clamp
    rw [min_eq_right (by linarith)]
  have hdown : clamp (g.ai.y + 4) 0 (g.HEIGHT - g.ai.height) =
      min (g.HEIGHT - g.ai.height) (g.ai.y + 4) := by
    unfold clamp
    rw [max_eq_right (le_min (by linarith) (by linarith))]
  have hstay : clamp g.ai.y 0 (g.HEIGHT - g.ai.height) = g.ai.y := clamp_of_mem _ _ _ h0 h1
  rw [hy]
  refine ⟨fun h => ?_, fun h => ?_, fun h => ?_, ?_, by rw [hs, hps]; norm_num⟩
  · rw [abs_le] at h
    rw [if_neg (by linarith [h.1]), if_neg (by linarith [h.2]), hstay]
  · rw [if_pos h, hup]
  · rw [if_neg (by linarith), if_pos h, hdown]
  · split_ifs
    · rw [hup, abs_le]
      constructor
      · linarith [le_max_right 0 (g.ai.y - 4)]
      · linarith [max_le (by linarith : (0:α) ≤ g.ai.y) (by linarith : g.ai.y - 4 ≤ g.ai.y)]
    · rw [hdown, abs_le]
      constructor
      · linarith [le_min (by linarith : g.ai.y ≤ g.HEIGHT - g.ai.height)
          (by linarith : g.ai.y ≤ g.ai.y + 4)]
      · linarith [min_le_right (g.HEIGHT - g.ai.height) (g.ai.y + 4)]
    · rw [hstay]
      simp

theorem ai_dead_zone_and_fixed_speed_witness :
    |(update (Trig.mk π cos sin) (rally 250 400 100 (-5) 0)).ai.y -
        (rally 250 400 100 (-5) 0 : Game ℝ).ai.y| ≤ 4 ∧
      (update (Trig.mk π cos sin) (rally 250 400 100 (-5) 0)).ai.y =
        max 0 ((rally 250 400 100 (-5) 0 : Game ℝ).ai.y - 4) := by
  have h := ai_dead_zone_and_fixed_speed (Trig.mk π cos sin) (rally 250 400 100 (-5) 0) rfl rfl rfl
    rfl (by norm_num [rally]) (by norm_num [rally])
  exact ⟨h.2.2.2.1, h.2.1 (by norm_num [rally])⟩

end Ai

/-! ## No tunnelling through a covering paddle -/

section Tunnelling

variable {α : Type} [LinearOrderedField α]

open Real

theorem scoreCheck_of_in_field (g : Game α) (h1 : ¬ g.ball.x + g.ball.r < 0)
    (h2 : ¬ g.ball.x - g.ball.r > g.WIDTH) : scoreCheck g = g := by
  unfold scoreCheck
  rw [if_neg h1, if_neg h2]

theorem sourceConstants_update (T : Trig α) (WIDTH : α) (g : Game α)
    (h : SourceConstants WIDTH g) : SourceConstants WIDTH (update T g) := by
  unfold update
  split_ifs
  · exact h
  · simpa [SourceConstants, beforeScore, beforeCollision] using h

theorem sourceConstants_step (T : Trig α) (WIDTH : α) (g : Game α) (e : Event α)
    (h : SourceConstants WIDTH g) : SourceConstants WIDTH (step T g e) := by
  cases e with
  | update => exact sourceConstants_update T WIDTH g h
  | mousemove mouseY => exact h
  | keydown code => cases code <;> exact h
  | keyup code => cases code <;> exact h
  | startClick now =>
    simp only [Pong.step, Pong.startClick]
    split_ifs <;> exact h
  | pauseClick =>
    simp only [Pong.step, Pong.pauseClick]
    split_ifs <;> exact h
  | frame timestamp =>
    simp only [Pong.step]
    split_ifs <;> exact h
  | timerFires u =>
    simp only [Pong.step]
    split
    · exact h
    · exact h

theorem sourceConstants_of_reachable (T : Trig α) (WIDTH HEIGHT : α) (g : Game α)
    (hg : Reachable T WIDTH HEIGHT g) : SourceConstants WIDTH g := by
  induction hg with
  | init u _ _ =>
    simp only [SourceConstants, Pong.init, resetBall]
    exact ⟨trivial, ⟨trivial, trivial, trivial, trivial⟩, ⟨trivial, trivial, trivial, trivial⟩,
      trivial⟩
  | step g e _ _ ih => exact sourceConstants_step T WIDTH g e ih

theorem leftwardInField_update (T : Trig α) (WIDTH : α) (hW : 34 ≤ WIDTH) (g : Game α)
    (hc : SourceConstants WIDTH g) (h : LeftwardInField g) : LeftwardInField (update T g) := by
  obtain ⟨hw, ⟨hpx, hpw, -, -⟩, ⟨hax, -, -, -⟩, hr⟩ := hc
  unfold Pong.update
  split_ifs
  · exact h
  · simp only [LeftwardInField, scoreCheck_ball, scoreCheck_WIDTH, beforeScore_WIDTH, beforeScore]
    unfold paddleCollision
    split_ifs
    · intro _
      simp only [reflectBallFromPaddle, beforeCollision_player_x, beforeCollision_player_width,
        beforeCollision_ball_r, beforeCollision_WIDTH, paddleCollision_WIDTH, hpx, hpw, hr, hw]
      linarith
    · intro _
      simp only [reflectBallFromPaddle, beforeCollision_ai_x, beforeCollision_ball_r,
        beforeCollision_WIDTH, paddleCollision_WIDTH, hax, hr, hw]
      linarith
    · intro hv
      rw [beforeCollision_ball_vx] at hv
      have hx : (beforeCollision g).ball.x = g.ball.x + g.ball.vx := by
        simp [beforeCollision, moveBall]
      rw [hx, beforeCollision_ball_r, beforeCollision_WIDTH]
      have := h hv
      linarith

/-- On a canvas at least 34 wide, in every reachable state a ball that moves
left has not passed the right goal line. -/
theorem leftward_in_field_of_reachable (T : Trig α) (WIDTH HEIGHT : α) (hW : 34 ≤ WIDTH)
    (g : Game α) (hg : Reachable T WIDTH HEIGHT g) : LeftwardInField g := by
  induction hg with
  | init u _ _ =>
    intro _
    simp only [Pong.init, resetBall]
    linarith
  | step g e he hg ih =>
    have hc := sourceConstants_of_reachable T WIDTH HEIGHT g hg
    cases e with
    | update => exact leftwardInField_update T WIDTH hW g hc ih
    | mousemove mouseY => exact ih
    | keydown code => cases code <;> exact ih
    | keyup code => cases code <;> exact ih
    | startClick now =>
      simp only [Pong.step, Pong.startClick]
      split_ifs <;> exact ih
    | pauseClick =>
      simp only [Pong.step, Pong.pauseClick]
      split_ifs <;> exact ih
    | frame timestamp =>
      simp only [Pong.step]
      split_ifs <;> exact ih
    | timerFires u =>
      simp only [Pong.step]
      split
      · intro _
        simp only [resetCallback, resetBall]
        rw [hc.1, hc.2.2.2]
        linarith
      · exact ih

/-- With the source constants for the left paddle and the ball radius, a ball
that moves left by at most 12 from `x ≥ 46`, has not passed the right goal line
and ends level with the player paddle is either still at `x ≥ 46` or is caught
by the collision test and placed at `x = 46`; no point is scored. -/
theorem no_tunnelling_of_in_field (T : Trig α) (g : Game α)
    (hrun : g.running = true) (hpause : g.paused = false)
    (hpx : g.player.x = 20) (hpw : g.player.width = 14) (hr : g.ball.r = 12)
    (hvx : g.ball.vx < 0) (hvx2 : |g.ball.vx| ≤ 12) (hx : 46 ≤ g.ball.x)
    (hright : g.ball.x - g.ball.r ≤ g.WIDTH)
    (hy1 : (beforeCollision g).player.y ≤ (beforeCollision g).ball.y)
    (hy2 : (beforeCollision g).ball.y ≤
      (beforeCollision g).player.y + (beforeCollision g).player.height) :
    46 ≤ (update T g).ball.x ∧
      (update T g).player.score = g.player.score ∧ (update T g).ai.score = g.ai.score ∧
      (update T g).paused = false ∧
      ((hitsPlayer (beforeCollision g) = false ∧ 46 ≤ g.ball.x + g.ball.vx ∧
          (update T g).ball.x = g.ball.x + g.ball.vx ∧ (update T g).ball.vx = g.ball.vx) ∨
        (hitsPlayer (beforeCollision g) = true ∧ g.ball.x + g.ball.vx < 46 ∧
          (update T g).ball.x = 46 ∧
          (update T g).ball =
            (reflectBallFromPaddle T
              { beforeCollision g with
                ball := { (beforeCollision g).ball with x := 46 } } Side.player).ball)) := by
  have hbx : (beforeCollision g).ball.x = g.ball.x + g.ball.vx := by
    simp [beforeCollision, moveBall]
  have hbvx : (beforeCollision g).ball.vx = g.ball.vx := beforeCollision_ball_vx g
  have hv := (abs_le.mp hvx2).1
  have hcx : clamp (g.ball.x + g.ball.vx) 20 (20 + 14) = (20 + 14 : α) :=
    clamp_of_ge _ _ _ (by linarith) (by norm_num)
  have hcy : clamp (beforeCollision g).ball.y (beforeCollision g).player.y
      ((beforeCollision g).player.y + (beforeCollision g).player.height) =
      (beforeCollision g).ball.y := clamp_of_mem _ _ _ hy1 hy2
  have hhit : hitsPlayer (beforeCollision g) = decide (g.ball.x + g.ball.vx < 46) := by
    simp only [hitsPlayer, rectCircleColliding, playerRect, hbx, hbvx, hcy,
      beforeCollision_player_x, beforeCollision_player_width, beforeCollision_ball_r, hpx, hpw,
      hr, hcx, hvx, decide_True, Bool.true_and, sub_self, mul_zero, add_zero]
    congr 1
    apply propext
    constructor
    · intro h
      nlinarith
    · intro h
      nlinarith
  have hu := update_of_running T g hrun hpause
  by_cases hlt : g.ball.x + g.ball.vx < 46
  · have hh : hitsPlayer (beforeCollision g) = true := by rw [hhit]; simpa using hlt
    have h46 : (beforeCollision g).player.x + (beforeCollision g).player.width +
        (beforeCollision g).ball.r = 46 := by
      rw [beforeCollision_player_x, beforeCollision_player_width, beforeCollision_ball_r, hpx,
        hpw, hr]
      norm_num
    have hbs : beforeScore T g =
        reflectBallFromPaddle T
          { beforeCollision g with
            ball := { (beforeCollision g).ball with x := 46 } } Side.player := by
      unfold beforeScore paddleCollision
      rw [if_pos hh, h46]
    have hball : (update T g).ball =
        (reflectBallFromPaddle T
          { beforeCollision g with
            ball := { (beforeCollision g).ball with x := 46 } } Side.player).ball := by
      rw [hu, scoreCheck_ball, hbs]
    have hxu : (update T g).ball.x = 46 := by rw [hball]; rfl
    have hbsx : (beforeScore T g).ball.x = 46 := by rw [hbs]; rfl
    have hin : scoreCheck (beforeScore T g) = beforeScore T g := by
      apply scoreCheck_of_in_field
      · rw [hbsx, beforeScore_ball_r, hr]; norm_num
      · rw [hbsx, beforeScore_ball_r, hr, beforeScore_WIDTH]
        rw [hr] at hright
        intro h
        linarith
    refine ⟨by rw [hxu], ?_, ?_, ?_, Or.inr ⟨hh, hlt, hxu, hball⟩⟩
    · rw [hu, hin, beforeScore_player_score]
    · rw [hu, hin, beforeScore_ai_score]
    · rw [hu, hin, hbs]
      simp [reflectBallFromPaddle, beforeCollision, hpause]
  · have hge : 46 ≤ g.ball.x + g.ball.vx := not_lt.mp hlt
    have hh : hitsPlayer (beforeCollision g) = false := by rw [hhit]; simpa using hlt
    have ha : hitsAi (beforeCollision g) = false := by
      simp only [hitsAi, hbvx, Bool.and_eq_false_imp, decide_eq_true_eq]
      intro h
      exact absurd h (not_lt.mpr hvx.le)
    have hbs : beforeScore T g = beforeCollision g := by
      unfold beforeScore
      exact paddleCollision_of_no_hit T _ hh ha
    have hin : scoreCheck (beforeScore T g) = beforeScore T g := by
      apply scoreCheck_of_in_field
      · rw [hbs, hbx, beforeCollision_ball_r, hr]
        intro h
        linarith
      · rw [hbs, hbx, beforeCollision_ball_r, hr, beforeCollision_WIDTH]
        rw [hr] at hright
        intro h
        linarith
    have hxu : (update T g).ball.x = g.ball.x + g.ball.vx := by rw [hu, hin, hbs, hbx]
    refine ⟨by rw [hxu]; exact hge, ?_, ?_, ?_, Or.inl ⟨hh, hge, hxu, ?_⟩⟩
    · rw [hu, hin, beforeScore_player_score]
    · rw [hu, hin, beforeScore_ai_score]
    · rw [hu, hin, hbs]
      simp [beforeCollision, hpause]
    · rw [hu, hin, hbs, hbvx]

/-- C20. No tunnelling through a covering paddle: on a canvas at least 34 wide,
in every reachable state the source constants hold (paddle x-range `[20, 34]`,
`ball.r = 12`), and for every reachable running, unpaused state with
`ball.vx < 0`, `|ball.vx| ≤ 12` and `ball.x ≥ 46` before the tick, if after
integration and wall resolution `ball.y` lies within the player paddle's
vertical extent (paddle position after its move in this tick), then after
`update` `ball.x ≥ 46` and no score is awarded (both scores unchanged, the game
not paused): either the ball has not yet reached the paddle and has just moved
by `vx`, or the collision is detected, the ball is placed at `x = 46` and its
velocity is the one set by `reflectBallFromPaddle`. -/
theorem no_tunnelling_through_covering_paddle (T : Trig α) (WIDTH HEIGHT : α)
    (hW : 34 ≤ WIDTH) (g : Game α) (hg : Reachable T WIDTH HEIGHT g)
    (hrun : g.running = true) (hpause : g.paused = false)
    (hvx : g.ball.vx < 0) (hvx2 : |g.ball.vx| ≤ 12) (hx : 46 ≤ g.ball.x)
    (hy1 : (beforeCollision g).player.y ≤ (beforeCollision g).ball.y)
    (hy2 : (beforeCollision g).ball.y ≤
      (beforeCollision g).player.y + (beforeCollision g).player.height) :
    (g.player.x = 20 ∧ g.player.width = 14 ∧ g.ball.r = 12) ∧
      46 ≤ (update T g).ball.x ∧
      (update T g).player.score = g.player.score ∧ (update T g).ai.score = g.ai.score ∧
      (update T g).paused = false ∧
      ((hitsPlayer (beforeCollision g) = false ∧ 46 ≤ g.ball.x + g.ball.vx ∧
          (update T g).ball.x = g.ball.x + g.ball.vx ∧ (update T g).ball.vx = g.ball.vx) ∨
        (hitsPlayer (beforeCollision g) = true ∧ g.ball.x + g.ball.vx < 46 ∧
          (update T g).ball.x = 46 ∧
          (update T g).ball =
            (reflectBallFromPaddle T
              { beforeCollision g with
                ball := { (beforeCollision g).ball with x := 46 } } Side.player).ball)) := by
  obtain ⟨-, ⟨hpx, hpw, -, -⟩, -, hr⟩ := sourceConstants_of_reachable T WIDTH HEIGHT g hg
  have hright : g.ball.x - g.ball.r ≤ g.WIDTH :=
    leftward_in_field_of_reachable T WIDTH HEIGHT hW g hg hvx
  exact ⟨⟨hpx, hpw, hr⟩,
    no_tunnelling_of_in_field T g hrun hpause hpx hpw hr hvx hvx2 hx hright hy1 hy2⟩

/-- A ball on the line `y = 300` whose centre is at `x ≥ 46` does not touch the
player paddle, wherever the paddle is. -/
theorem hitsPlayer_far_false (py x : α) (h : 46 ≤ x) :
    hitsPlayer (rally py x 300 (-5) 0 : Game α) = false := by
  have hcx : clamp x 20 (20 + 14) = (20 + 14 : α) :=
    clamp_of_ge _ _ _ (by linarith) (by norm_num)
  simp [hitsPlayer, rectCircleColliding, playerRect, rally, hcx]
  nlinarith [mul_self_nonneg (300 - clamp (300 : α) py (py + 100))]

/-- The approach used below is reachable: horizontal serve, the paddle centred on
the ball's line by the mouse, 70 updates of free flight. -/
theorem approach_reachable :
    Reachable (Trig.mk π cos sin) 800 600 (rally 250 50 300 (-5) 0) := by
  have h := rally_reachable 300 (by norm_num) (by norm_num) 70 (by norm_num) (by
    intro k hk
    have hk' : (k : ℝ) ≤ 69 := by exact_mod_cast Nat.le_of_lt_succ hk
    norm_num
    exact hitsPlayer_far_false _ _ (by linarith))
  norm_num at h
  exact h

theorem no_tunnelling_through_covering_paddle_witness :
    46 ≤ (update (Trig.mk π cos sin) (rally 250 50 300 (-5) 0)).ball.x ∧
      (update (Trig.mk π cos sin) (rally 250 50 300 (-5) 0)).player.score =
        (rally 250 50 300 (-5) 0 : Game ℝ).player.score ∧
      (update (Trig.mk π cos sin) (rally 250 50 300 (-5) 0)).ai.score =
        (rally 250 50 300 (-5) 0 : Game ℝ).ai.score ∧
      (update (Trig.mk π cos sin) (rally 250 50 300 (-5) 0)).paused = false := by
  have h := no_tunnelling_through_covering_paddle (Trig.mk π cos sin) 800 600 (by norm_num)
    (rally 250 50 300 (-5) 0) approach_reachable rfl rfl (by norm_num [rally])
    (by norm_num [rally, abs_le]) (by norm_num [rally])
    (by rw [approach_beforeCollision]; norm_num [rally])
    (by rw [approach_beforeCollision]; norm_num [rally])
  exact ⟨h.2.1, h.2.2.1, h.2.2.2.1, h.2.2.2.2.1⟩

end Tunnelling

end Pong
